import Mathlib

/-!
Verification of the warehouse-redistribution planner
(`backend/ia/transfer_suggestions/src/transfer_service.py` together with its
configuration `config.py` and the FastAPI controller
`transfer_suggestions_controller.py`).

The Python service is embedded shallowly: pandas DataFrames become lists of
structures, float arithmetic becomes exact `Rat` arithmetic, Python's `int(x)`
becomes truncation toward zero, and the two external numeric libraries
(Prophet and the OR-tools VRP solver) as well as `numpy.sqrt` are abstracted
as oracle parameters — every property proved below holds for an arbitrary
oracle.  Fallible code paths (the pandas `ValueError` raised by evaluating a
DataFrame in boolean context) are modelled with `Except`.
-/

namespace TransferService

/-! ## Configuration constants (config.py) -/

def MIN_DATA_POINTS_FOR_PROPHET : Nat := 10

def DEFAULT_FORECAST_DAYS : Nat := 30

def FORCE_MINIMUM_TRANSFERS : Bool := true

def WAREHOUSE_IMBALANCE_THRESHOLD : Rat := 0.2

def MINIMUM_TRANSFER_SUGGESTIONS : Nat := 1

def CONFIDENCE_THRESHOLD : Rat := 0.6

/-! ## Snapshot data model

Quantities and capacities are DB integers read through pandas, where all
arithmetic happens in float; they are modelled as exact rationals.
Registration dates are modelled as ordinals (only their order matters, for
FIFO sorting). -/

structure InvRecord where
  recordid : Nat
  productid : Nat
  warehouseid : Nat
  quantitykg : Rat
  supplierid : Nat
  qualityclassification : Nat
  registrationdate : Nat
  deriving Repr, DecidableEq

structure ForecastRow where
  productid : Nat
  zone_id : Int
  forecasteddemandkg : Rat
  forecast_confidence : Rat
  deriving Repr, DecidableEq

structure TransferCandidate where
  recordid : Nat
  productid : Nat
  from_warehouseid : Nat
  to_warehouseid : Nat
  transfer_qty : Rat
  supplier_id : Nat
  quality : Nat
  registration_date : Nat
  confidence_score : Rat
  deriving Repr, DecidableEq

structure Truck where
  truckid : Nat
  loadcapacitykg : Int
  deriving Repr, DecidableEq

structure WarehouseNode where
  warehouseid : Nat
  name : String
  x : Rat
  y : Rat
  deriving Repr, DecidableEq

structure SaleRow where
  productid : Nat
  zone_id : Int
  ds : Nat
  quantitykg : Rat
  deriving Repr, DecidableEq

/-! ## Generic helpers -/

/-- Distinct elements of a list, keeping the first occurrence of each.
Models the group keys produced by a pandas `groupby` (pandas emits groups
sorted by key; none of the verified claims depends on group order). -/
def dedupFirst {α : Type} [DecidableEq α] : List α → List α
  | [] => []
  | a :: as => a :: (dedupFirst as).filter (fun b => b ≠ a)

theorem mem_dedupFirst {α : Type} [DecidableEq α] {a : α} :
    ∀ {l : List α}, a ∈ dedupFirst l ↔ a ∈ l := by
  intro l
  induction l with
  | nil => simp [dedupFirst]
  | cons b bs ih =>
    simp only [dedupFirst, List.mem_cons, List.mem_filter]
    constructor
    · rintro (h | ⟨h, _⟩)
      · exact Or.inl h
      · exact Or.inr (ih.mp h)
    · rintro (h | h)
      · exact Or.inl h
      · by_cases hab : a = b
        · exact Or.inl hab
        · exact Or.inr ⟨ih.mpr h, by simpa using hab⟩

theorem nodup_dedupFirst {α : Type} [DecidableEq α] :
    ∀ (l : List α), (dedupFirst l).Nodup := by
  intro l
  induction l with
  | nil => simp [dedupFirst]
  | cons b bs ih =>
    refine List.Nodup.cons ?_ (List.Nodup.filter _ ih)
    intro hmem
    rcases List.mem_filter.mp hmem with ⟨_, hne⟩
    simp at hne

/-- Python `int(x)` applied to a float: truncation toward zero. -/
def ratTrunc (q : Rat) : Int := if 0 ≤ q then ⌊q⌋ else ⌈q⌉

theorem ratTrunc_le_of_nonneg {q : Rat} (h : 0 ≤ q) : (ratTrunc q : Rat) ≤ q := by
  simp only [ratTrunc, if_pos h]
  exact Int.floor_le q

theorem ratTrunc_nonneg {q : Rat} (h : 0 ≤ q) : 0 ≤ ratTrunc q := by
  simp only [ratTrunc, if_pos h]
  exact Int.floor_nonneg.mpr h

theorem abs_ratTrunc_le (q : Rat) : |(ratTrunc q : Rat)| ≤ |q| := by
  by_cases h : 0 ≤ q
  · simp only [ratTrunc, if_pos h]
    rw [abs_of_nonneg h, abs_of_nonneg]
    · exact Int.floor_le q
    · exact_mod_cast Int.floor_nonneg.mpr h
  · push_neg at h
    simp only [ratTrunc, if_neg (not_le.mpr h)]
    rw [abs_of_neg h, abs_of_nonpos]
    · simp only [neg_le_neg_iff]
      exact Int.le_ceil q
    · have : (⌈q⌉ : Int) ≤ 0 := Int.ceil_le.mpr (by exact_mod_cast h.le)
      exact_mod_cast this

theorem le_foldr_max {a : Int} {l : List Int} (h : a ∈ l) (b : Int) :
    a ≤ l.foldr max b := by
  induction l with
  | nil => cases h
  | cons x xs ih =>
    rcases List.mem_cons.mp h with rfl | h
    · exact le_max_left _ _
    · exact le_trans (ih h) (le_max_right _ _)

/-- Mean of a list of rationals (pandas `.mean()`); for the empty list this is
`0/0 = 0` in `Rat`, matching the only way it is consumed below. -/
theorem list_mean_le_one {l : List Rat} (h : ∀ x ∈ l, x ≤ 1) :
    l.sum / (l.length : Rat) ≤ 1 := by
  rcases l.eq_nil_or_concat.imp_left id with rfl | _
  · simp
  · have hlen : (0 : Rat) < (l.length : Rat) := by
      have : l ≠ [] := by
        rintro rfl
        simp at *
      have : 0 < l.length := List.length_pos.mpr this
      exact_mod_cast this
    rw [div_le_one hlen]
    calc l.sum ≤ l.length • (1 : Rat) := List.sum_le_card_nsmul l 1 h
      _ = (l.length : Rat) := by simp

theorem list_mean_nonneg {l : List Rat} (h : ∀ x ∈ l, 0 ≤ x) :
    0 ≤ l.sum / (l.length : Rat) := by
  apply div_nonneg (List.sum_nonneg h)
  exact_mod_cast Nat.zero_le _

/-! ## Demand forecasting (`run_forecasting`, lines 188-286)

Prophet model fitting is external; it is abstracted as an oracle returning
the three quantities the service reads off a fitted model: the summed `yhat`
over the horizon, the mean `yhat_upper - yhat_lower` interval width over the
horizon, and the mean `yhat` over the horizon.  `prophetFit = none` models a
fit that raises, taking the except-branch fallback.  `numpy`'s square root
(used only for the std/variance penalty feeding the confidence blend) is
likewise an oracle `sqrtFn`. -/

structure ProphetFit where
  totalDemand : Rat
  meanIntervalWidth : Rat
  meanForecast : Rat
  deriving Repr, DecidableEq

/-- Daily aggregation `group.groupby("ds").agg(y=("quantitykg","sum"))` of one
(product, zone) group, keys sorted ascending as pandas does. -/
def dailySeries (rows : List SaleRow) : List (Nat × Rat) :=
  (List.insertionSort (fun a b : Nat => a ≤ b) (dedupFirst (rows.map (·.ds)))).map
    fun d => (d, ((rows.filter fun r => r.ds = d).map (·.quantitykg)).sum)

/-- Body of the per-(product, zone) loop of `run_forecasting`: returns `none`
when the group is skipped (outlier zone, or fewer than 2 daily points). -/
def forecastGroup (prophetFit : List (Nat × Rat) → Option ProphetFit)
    (sqrtFn : Rat → Rat) (pid : Nat) (zoneId : Int) (rows : List SaleRow) :
    Option ForecastRow :=
  if zoneId = -1 then none
  else
    let dfTs := dailySeries rows
    if dfTs.length < 2 then none
    else
      let n : Rat := (dfTs.length : Rat)
      let dataQualityScore := min (n / (MIN_DATA_POINTS_FOR_PROPHET : Rat)) 1
      let meanDemand := ((dfTs.map (·.2)).sum) / n
      let stdDemand := sqrtFn (((dfTs.map fun p => (p.2 - meanDemand) ^ 2).sum) / (n - 1))
      let cv := stdDemand / (meanDemand + 1 / 1000000)
      let variancePenalty := max 0.3 (1 / (1 + cv))
      if dfTs.length < MIN_DATA_POINTS_FOR_PROPHET then
        let totalDemand := meanDemand * (DEFAULT_FORECAST_DAYS : Rat)
        let forecastConfidence := 0.4 + 0.3 * dataQualityScore + 0.3 * variancePenalty
        some { productid := pid, zone_id := zoneId,
               forecasteddemandkg := max 0 totalDemand,
               forecast_confidence := forecastConfidence }
      else
        match prophetFit dfTs with
        | some fit =>
          let uncertaintyQuot := fit.meanIntervalWidth / (|fit.meanForecast| + 1 / 1000000)
          let uncertaintyScore := max 0.2 (1 - min (uncertaintyQuot / 2) 0.8)
          let forecastConfidence :=
            0.3 + 0.4 * uncertaintyScore + 0.2 * dataQualityScore + 0.1 * variancePenalty
          some { productid := pid, zone_id := zoneId,
                 forecasteddemandkg := max 0 fit.totalDemand,
                 forecast_confidence := forecastConfidence }
        | none =>
          let totalDemand := meanDemand * (DEFAULT_FORECAST_DAYS : Rat)
          let forecastConfidence := 0.3 + 0.3 * dataQualityScore + 0.4 * variancePenalty
          some { productid := pid, zone_id := zoneId,
                 forecasteddemandkg := max 0 totalDemand,
                 forecast_confidence := forecastConfidence }

/-- `run_forecasting`: iterate the (productid, zone_id) groups of the
zone-joined sales frame. -/
def run_forecasting (prophetFit : List (Nat × Rat) → Option ProphetFit)
    (sqrtFn : Rat → Rat) (sales : List SaleRow) : List ForecastRow :=
  (dedupFirst (sales.map fun r => (r.productid, r.zone_id))).filterMap fun k =>
    forecastGroup prophetFit sqrtFn k.1 k.2
      (sales.filter fun r => r.productid = k.1 ∧ r.zone_id = k.2)

/-! ## Inventory delta and FIFO transfer matching
(`calculate_inventory_delta`, lines 288-434) -/

structure DemandEntry where
  warehouseid : Nat
  productid : Nat
  forecasteddemandkg : Rat
  forecast_confidence : Rat
  deriving Repr, DecidableEq

structure StockEntry where
  warehouseid : Nat
  productid : Nat
  total : Rat
  deriving Repr, DecidableEq

structure DeltaRow where
  warehouseid : Nat
  productid : Nat
  forecasteddemandkg : Rat
  forecast_confidence : Rat
  totalquantitykg : Rat
  deltakg : Rat
  deriving Repr, DecidableEq

/-- `df_forecast["warehouseid"] = df_forecast["zone_id"].map(zone_warehouse_map)`:
rows whose zone is not in the map get a NaN warehouse and are dropped by the
subsequent groupby. -/
def mappedForecast (zoneWarehouseMap : Int → Option Nat) (dfForecast : List ForecastRow) :
    List (Nat × ForecastRow) :=
  dfForecast.filterMap fun r => (zoneWarehouseMap r.zone_id).map fun w => (w, r)

/-- `df_demand`: groupby (warehouseid, productid), summing demand and averaging
confidence across zones. -/
def dfDemand (zoneWarehouseMap : Int → Option Nat) (dfForecast : List ForecastRow) :
    List DemandEntry :=
  let rows := mappedForecast zoneWarehouseMap dfForecast
  (dedupFirst (rows.map fun r => (r.1, r.2.productid))).map fun k =>
    let grp := rows.filter fun r => r.1 = k.1 ∧ r.2.productid = k.2
    { warehouseid := k.1, productid := k.2,
      forecasteddemandkg := (grp.map fun r => r.2.forecasteddemandkg).sum,
      forecast_confidence :=
        (grp.map fun r => r.2.forecast_confidence).sum / (grp.length : Rat) }

/-- `df_inventory_totals`: groupby (warehouseid, productid) sum of quantitykg. -/
def dfInventoryTotals (inv : List InvRecord) : List StockEntry :=
  (dedupFirst (inv.map fun r => (r.warehouseid, r.productid))).map fun k =>
    { warehouseid := k.1, productid := k.2,
      total := ((inv.filter fun r => r.warehouseid = k.1 ∧ r.productid = k.2).map
        (·.quantitykg)).sum }

/-- `df_delta`: outer merge of demand and inventory totals on
(warehouseid, productid) with fillna 0, and `deltakg = total - demand`. -/
def dfDelta (zoneWarehouseMap : Int → Option Nat) (dfForecast : List ForecastRow)
    (inv : List InvRecord) : List DeltaRow :=
  let dem := dfDemand zoneWarehouseMap dfForecast
  let tot := dfInventoryTotals inv
  let keys := dedupFirst ((dem.map fun d => (d.warehouseid, d.productid)) ++
    (tot.map fun t => (t.warehouseid, t.productid)))
  keys.map fun k =>
    let dOpt := dem.find? fun d => d.warehouseid = k.1 ∧ d.productid = k.2
    let tOpt := tot.find? fun t => t.warehouseid = k.1 ∧ t.productid = k.2
    let demandKg := match dOpt with | some d => d.forecasteddemandkg | none => 0
    let conf := match dOpt with | some d => d.forecast_confidence | none => 0
    let totalKg := match tOpt with | some t => t.total | none => 0
    { warehouseid := k.1, productid := k.2, forecasteddemandkg := demandKg,
      forecast_confidence := conf, totalquantitykg := totalKg,
      deltakg := totalKg - demandKg }

/-- The transfer confidence formula of `calculate_inventory_delta`
(lines 383-406): 0.5/0.2/0.2/0.1 weighted blend, floored at 0.1. -/
def transferConfidence (neededQty availableSurplus recordQty deficitConf surplusConf : Rat) :
    Rat :=
  let demandMagnitudeScore := min (neededQty / 100) 1
  let surplusMagnitudeScore := min (availableSurplus / 100) 1
  let quantityMatchScore := min (recordQty / neededQty) 1
  let avgForecastConfidence := (deficitConf + surplusConf) / 2
  max 0.1 (0.5 * avgForecastConfidence + 0.2 * demandMagnitudeScore
    + 0.2 * surplusMagnitudeScore + 0.1 * quantityMatchScore)

/-- FIFO record loop for one (deficit, surplus) pair.  Threads the remaining
need (returned, since it persists to the next surplus warehouse) and the
remaining surplus of this source (local). -/
def pickFromRecords (pid fromW toW : Nat) (neededQty deficitConf surplusConf : Rat) :
    List InvRecord → Rat → Rat → List TransferCandidate × Rat
  | [], remainingNeed, _ => ([], remainingNeed)
  | r :: rs, remainingNeed, availableSurplus =>
    if remainingNeed ≤ 0 then ([], remainingNeed)
    else if r.quantitykg ≤ remainingNeed ∧ r.quantitykg ≤ availableSurplus then
      let cand : TransferCandidate :=
        { recordid := r.recordid, productid := pid, from_warehouseid := fromW,
          to_warehouseid := toW, transfer_qty := r.quantitykg,
          supplier_id := r.supplierid, quality := r.qualityclassification,
          registration_date := r.registrationdate,
          confidence_score :=
            transferConfidence neededQty availableSurplus r.quantitykg deficitConf surplusConf }
      let rest := pickFromRecords pid fromW toW neededQty deficitConf surplusConf rs
        (remainingNeed - r.quantitykg) (availableSurplus - r.quantitykg)
      (cand :: rest.1, rest.2)
    else pickFromRecords pid fromW toW neededQty deficitConf surplusConf rs
      remainingNeed availableSurplus

/-- Loop over the surplus warehouses for one deficit row (sorted by descending
surplus), each scanning the source's records oldest-first. -/
def overSurplusRows (inv : List InvRecord) (pid deficitW : Nat)
    (neededQty deficitConf : Rat) :
    List DeltaRow → Rat → List TransferCandidate
  | [], _ => []
  | s :: ss, remainingNeed =>
    if remainingNeed ≤ 0 then []
    else
      let surplusRecords :=
        List.insertionSort (fun a b : InvRecord => a.registrationdate ≤ b.registrationdate)
          (inv.filter fun r => r.productid = pid ∧ r.warehouseid = s.warehouseid)
      let picked := pickFromRecords pid s.warehouseid deficitW neededQty deficitConf
        s.forecast_confidence surplusRecords remainingNeed s.deltakg
      picked.1 ++ overSurplusRows inv pid deficitW neededQty deficitConf ss picked.2

/-- `calculate_inventory_delta`: surplus/deficit split of `df_delta` followed
by greedy FIFO whole-record matching.  Note that the surplus table and the
inventory frame are re-read unchanged for every deficit row — nothing records
which inventory records earlier deficit rows already consumed. -/
def calculate_inventory_delta (zoneWarehouseMap : Int → Option Nat)
    (dfForecast : List ForecastRow) (inv : List InvRecord) : List TransferCandidate :=
  let delta := dfDelta zoneWarehouseMap dfForecast inv
  let surplusWarehouses := delta.filter fun d => 0 < d.deltakg
  let deficitWarehouses := delta.filter fun d => d.deltakg < 0
  deficitWarehouses.flatMap fun d =>
    let productSurplus :=
      List.insertionSort (fun a b : DeltaRow => b.deltakg ≤ a.deltakg)
        (surplusWarehouses.filter fun s => s.productid = d.productid)
    overSurplusRows inv d.productid d.warehouseid |d.deltakg| d.forecast_confidence
      productSurplus |d.deltakg|

/-! ## Warehouse-balance fallback generator
(`generate_warehouse_balance_transfers`, lines 436-514) -/

/-- `warehouse_stock`: total stock per (warehouseid, productid). (The
`record_count` column computed alongside is never read downstream.) -/
def warehouseStock (inv : List InvRecord) : List StockEntry :=
  (dedupFirst (inv.map fun r => (r.warehouseid, r.productid))).map fun k =>
    { warehouseid := k.1, productid := k.2,
      total := ((inv.filter fun r => r.warehouseid = k.1 ∧ r.productid = k.2).map
        (·.quantitykg)).sum }

/-- `avg_stock_per_product`: per product, mean of the product's per-warehouse
stock totals. -/
def avgStockPerProduct (stock : List StockEntry) : List (Nat × Rat) :=
  (dedupFirst (stock.map (·.productid))).map fun pid =>
    let grp := stock.filter fun s => s.productid = pid
    (pid, (grp.map (·.total)).sum / (grp.length : Rat))

/-- Record loop for one (surplus, deficit) pair of the balance generator:
whole records accepted while they fit both the remaining excess and the
remaining need.  Returns the final excess (threaded to the next deficit). -/
def balancePick (pid fromW toW : Nat) :
    List InvRecord → Rat → Rat → List TransferCandidate × Rat
  | [], excessQty, _ => ([], excessQty)
  | r :: rs, excessQty, neededQty =>
    if excessQty ≤ 0 ∨ neededQty ≤ 0 then ([], excessQty)
    else if r.quantitykg ≤ min excessQty neededQty then
      let cand : TransferCandidate :=
        { recordid := r.recordid, productid := pid, from_warehouseid := fromW,
          to_warehouseid := toW, transfer_qty := r.quantitykg,
          supplier_id := r.supplierid, quality := r.qualityclassification,
          registration_date := r.registrationdate, confidence_score := 0.8 }
      let rest := balancePick pid fromW toW rs (excessQty - r.quantitykg)
        (neededQty - r.quantitykg)
      (cand :: rest.1, rest.2)
    else balancePick pid fromW toW rs excessQty neededQty

/-- Loop over the deficit warehouses for one surplus warehouse.  The record
list is re-scanned from the start for every deficit row (the source notes no
per-record bookkeeping across deficits). -/
def overDeficitRows (pid fromW : Nat) (avgStock : Rat) (surplusRecords : List InvRecord) :
    List StockEntry → Rat → List TransferCandidate
  | [], _ => []
  | d :: ds, excessQty =>
    if excessQty ≤ 0 then []
    else
      let picked := balancePick pid fromW d.warehouseid surplusRecords excessQty
        (avgStock - d.total)
      picked.1 ++ overDeficitRows pid fromW avgStock surplusRecords ds picked.2

/-- Lines 450-503 of `generate_warehouse_balance_transfers`: the imbalance
transfers themselves, before the forced-minimum top-up block. -/
def balanceTransfersBase (inv : List InvRecord) : List TransferCandidate :=
  let stock := warehouseStock inv
  (avgStockPerProduct stock).flatMap fun pa =>
    let pid := pa.1
    let avgStock := pa.2
    let productWarehouses := stock.filter fun s => s.productid = pid
    let surplusWarehouses := productWarehouses.filter fun s =>
      avgStock * (1 + WAREHOUSE_IMBALANCE_THRESHOLD) < s.total
    let deficitWarehouses := productWarehouses.filter fun s =>
      s.total < avgStock * (1 - WAREHOUSE_IMBALANCE_THRESHOLD)
    if surplusWarehouses = [] ∨ deficitWarehouses = [] then []
    else
      surplusWarehouses.flatMap fun s =>
        let surplusRecords :=
          List.insertionSort (fun a b : InvRecord => a.registrationdate ≤ b.registrationdate)
            (inv.filter fun r => r.productid = pid ∧ r.warehouseid = s.warehouseid)
        overDeficitRows pid s.warehouseid avgStock surplusRecords deficitWarehouses
          (s.total - avgStock)

/-! ## Forced-minimum generator (`generate_minimum_transfers`, lines 516-558) -/

/-- Record loop for one source warehouse: round-robin destinations, counting
records used.  (`dest_warehouses` is non-empty at every call site, guarded by
the `len(warehouse_totals) < 2` early return.) -/
def minTransferPick (fromW : Nat) (destWs : List Nat) (numNeeded : Nat) :
    List InvRecord → Nat → List TransferCandidate × Nat
  | [], recordsUsed => ([], recordsUsed)
  | r :: rs, recordsUsed =>
    if numNeeded ≤ recordsUsed then ([], recordsUsed)
    else
      let destW := destWs.getD (recordsUsed % destWs.length) 0
      let cand : TransferCandidate :=
        { recordid := r.recordid, productid := r.productid, from_warehouseid := fromW,
          to_warehouseid := destW, transfer_qty := r.quantitykg,
          supplier_id := r.supplierid, quality := r.qualityclassification,
          registration_date := r.registrationdate, confidence_score := 0.6 }
      let rest := minTransferPick fromW destWs numNeeded rs (recordsUsed + 1)
      (cand :: rest.1, rest.2)

/-- Loop over the source warehouses, threading the used count. -/
def minSourceLoop (inv : List InvRecord) (destWs : List Nat) (numNeeded : Nat) :
    List Nat → Nat → List TransferCandidate
  | [], _ => []
  | w :: ws, recordsUsed =>
    if numNeeded ≤ recordsUsed then []
    else
      let sourceRecords :=
        List.insertionSort (fun a b : InvRecord => a.registrationdate ≤ b.registrationdate)
          (inv.filter fun r => r.warehouseid = w)
      let picked := minTransferPick w destWs numNeeded sourceRecords recordsUsed
      picked.1 ++ minSourceLoop inv destWs numNeeded ws picked.2

/-- `warehouse_totals`: per-warehouse total stock (groupby warehouseid sum). -/
def warehouseTotalsOf (inv : List InvRecord) : List (Nat × Rat) :=
  (dedupFirst (inv.map (·.warehouseid))).map fun w =>
    (w, ((inv.filter fun r => r.warehouseid = w).map (·.quantitykg)).sum)

/-- `warehouse_totals.sort_values(ascending=False)`. -/
def sortedWarehouseTotals (inv : List InvRecord) : List (Nat × Rat) :=
  List.insertionSort (fun a b : Nat × Rat => b.2 ≤ a.2) (warehouseTotalsOf inv)

/-- `generate_minimum_transfers`: split warehouses by total stock into the
highest-stock half (sources) and lowest-stock half (destinations) and
round-robin whole records from sources to destinations. -/
def generate_minimum_transfers (inv : List InvRecord) (numNeeded : Nat) :
    List TransferCandidate :=
  let sorted := sortedWarehouseTotals inv
  if sorted.length < 2 then []
  else
    let sourceWarehouses := (sorted.take (sorted.length / 2)).map (·.1)
    let destWarehouses := (sorted.drop (sorted.length - sorted.length / 2)).map (·.1)
    minSourceLoop inv destWarehouses numNeeded sourceWarehouses 0

/-- `generate_warehouse_balance_transfers`, lines 503-514.  When fewer than
`MINIMUM_TRANSFER_SUGGESTIONS` balance transfers were generated and inventory
is non-empty, the code computes the forced-minimum transfers and then runs
`if additional_transfers:` on the resulting DataFrame — pandas raises
`ValueError` for any DataFrame in boolean context, so this branch always
raises instead of appending; modelled as `Except.error`. -/
def generate_warehouse_balance_transfers (inv : List InvRecord) :
    Except String (List TransferCandidate) :=
  let dfTransfers := balanceTransfersBase inv
  if FORCE_MINIMUM_TRANSFERS ∧ dfTransfers.length < MINIMUM_TRANSFER_SUGGESTIONS ∧
      inv ≠ [] then
    let _additional := generate_minimum_transfers inv
      (MINIMUM_TRANSFER_SUGGESTIONS - dfTransfers.length)
    Except.error ("ValueError: the truth value of a DataFrame is ambiguous")
  else Except.ok dfTransfers

/-- The candidate-generation chain of `generate_transfer_suggestions`
(lines 1087-1100): when `run_forecasting` produced an empty frame, the balance
transfers frame is substituted for `df_forecast` and
`calculate_inventory_delta` then indexes its missing `zone_id` column,
raising `KeyError` (caught by the top-level handler); otherwise the delta
matcher runs and, if it finds nothing, the balance generator is invoked. -/
def transferCandidateChain (zoneWarehouseMap : Int → Option Nat)
    (dfForecast : List ForecastRow) (inv : List InvRecord) :
    Except String (List TransferCandidate) :=
  if dfForecast = [] then
    match generate_warehouse_balance_transfers inv with
    | Except.error e => Except.error e
    | Except.ok _ => Except.error ("KeyError: zone_id")
  else
    let dfTransfers := calculate_inventory_delta zoneWarehouseMap dfForecast inv
    if dfTransfers = [] then generate_warehouse_balance_transfers inv
    else Except.ok dfTransfers

/-! ## Confidence filter (`apply_confidence_threshold`, lines 560-586) -/

/-- `apply_confidence_threshold`, parameterised by the configured threshold
and minimum (`CONFIDENCE_THRESHOLD` and `MINIMUM_TRANSFER_SUGGESTIONS` in
config.py).  `nlargest` is a stable descending sort followed by `take`. -/
def apply_confidence_threshold (confidenceThreshold : Rat)
    (minimumTransferSuggestions : Nat) (dfTransfers : List TransferCandidate) :
    List TransferCandidate :=
  if dfTransfers = [] then dfTransfers
  else
    let highConfidence := dfTransfers.filter fun t =>
      confidenceThreshold ≤ t.confidence_score
    if minimumTransferSuggestions ≤ highConfidence.length then highConfidence
    else if minimumTransferSuggestions ≤ dfTransfers.length then
      (List.insertionSort
        (fun a b : TransferCandidate => b.confidence_score ≤ a.confidence_score)
        dfTransfers).take minimumTransferSuggestions
    else dfTransfers

/-! ## Routing optimisation (`solve_redistribution_vrp`, lines 625-888)

The OR-tools solve is abstracted as an oracle taking the product id, the
(scaled, split) demand vector and the truck capacity vector and returning
`some visited` (the vehicle ids that have visits in the found solution — the
only information the assignment-parsing loop reads) or `none` (no solution
from the primary search, the fallback strategies, or the uncapacitated
retry).  Everything before and after the solver call is modelled from the
source. -/

structure RouteAssignment where
  route_key : String
  truck_id : Nat
  capacity : Int
  total_load : Rat
  deriving Repr, DecidableEq

/-- `total_surplus = abs(sum(d for d in demands if d < 0))` (line 682). -/
def totalSurplusOf (demands : List Int) : Int := |(demands.filter fun d => d < 0).sum|

/-- `total_deficit = sum(d for d in demands if d > 0)` (line 683). -/
def totalDeficitOf (demands : List Int) : Int := (demands.filter fun d => 0 < d).sum

/-- `actual_redistribution = min(total_surplus, total_deficit,
total_fleet_capacity)` (line 690). -/
def actualRedistributionOf (demands truckCapacities : List Int) : Int :=
  min (totalSurplusOf demands) (min (totalDeficitOf demands) truckCapacities.sum)

/-- Demand scaling, lines 689-695: positive demands are multiplied by
`min(1, actual_redistribution / total_deficit)` and truncated to int. -/
def scaleDemands (demands : List Int) (totalDeficit actualRedistribution : Rat) :
    List Int :=
  if 0 < totalDeficit then
    let scaleFactor := min 1 (actualRedistribution / totalDeficit)
    demands.map fun d : Int =>
      if 0 < d then ratTrunc ((d : Rat) * scaleFactor) else d
  else demands

/-- Node splitting, lines 756-774: a node whose absolute demand exceeds the
largest truck capacity becomes `ceil(|d| / cap)` synthetic visits at the same
coordinates, each carrying `int(d / num_splits)`. -/
def splitNode (maxTruckCapacity : Int) (dc : Int × Rat × Rat) : List (Int × Rat × Rat) :=
  if |dc.1| ≤ maxTruckCapacity then [dc]
  else
    let numSplits : Nat :=
      (dc.1.natAbs + maxTruckCapacity.toNat - 1) / maxTruckCapacity.toNat
    List.replicate numSplits (ratTrunc ((dc.1 : Rat) / (numSplits : Rat)), dc.2)

/-- Lines 751-777: the splitting runs only when some node exceeds the largest
truck capacity. -/
def splitLargeDemands (maxTruckCapacity : Int) (nodes : List (Int × Rat × Rat)) :
    List (Int × Rat × Rat) :=
  let maxDemand := (nodes.map fun dc => |dc.1|).foldr max 0
  if maxTruckCapacity < maxDemand then nodes.flatMap (splitNode maxTruckCapacity)
  else nodes

/-- Assignment parsing on solver success (lines 846-872): one `vrp_route_i`
entry per vehicle with visits; `total_load` divides the planned redistribution
by the running count of used trucks. -/
def vrpAssignLoop (visited : List Nat) (actualRedistribution : Rat) :
    List Truck → Nat → Nat → List RouteAssignment
  | [], _, _ => []
  | t :: ts, vehicleId, trucksUsed =>
    if vehicleId ∈ visited then
      { route_key := "vrp_route_" ++ toString vehicleId, truck_id := t.truckid,
        capacity := t.loadcapacitykg,
        total_load := actualRedistribution / ((trucksUsed + 1 : Nat) : Rat) } ::
        vrpAssignLoop visited actualRedistribution ts (vehicleId + 1) (trucksUsed + 1)
    else vrpAssignLoop visited actualRedistribution ts (vehicleId + 1) trucksUsed

/-- Forced assignments when no solver strategy succeeds (lines 873-886). -/
def basicAssignments (availableTrucks : List Truck) (demands : List Int) :
    List RouteAssignment :=
  let totalLoad : Rat := ((demands.filter fun d => d ≠ 0).map fun d => (|d| : Rat)).sum
  let maxCap := (availableTrucks.map (·.loadcapacitykg)).foldr max 0
  let trucksToUse := min availableTrucks.length
    (max 1 (ratTrunc (totalLoad / (maxCap : Rat))).toNat)
  (availableTrucks.take trucksToUse).enum.map fun it =>
    { route_key := "basic_route_" ++ toString it.1, truck_id := it.2.truckid,
      capacity := it.2.loadcapacitykg, total_load := totalLoad / (trucksToUse : Rat) }

/-- `solve_redistribution_vrp`.  Returns `none` on the two Python `return
None` paths (no transfers for the product; zero aggregate surplus), otherwise
the parsed assignments (possibly empty if no vehicle has visits) or the basic
forced assignments. -/
def solve_redistribution_vrp (solver : Nat → List Int → List Int → Option (List Nat))
    (maxTrucksToUse : Nat) (pid : Nat) (transfers : List TransferCandidate)
    (warehouses : List WarehouseNode) (trucks : List Truck) :
    Option (List RouteAssignment) :=
  let productTransfers := transfers.filter fun t => t.productid = pid
  if productTransfers = [] then none
  else
    let involvedWarehouseIds :=
      dedupFirst ((productTransfers.map (·.from_warehouseid)) ++
        (productTransfers.map (·.to_warehouseid)))
    let netTransfer := fun w =>
      ((productTransfers.filter fun t => t.to_warehouseid = w).map (·.transfer_qty)).sum -
        ((productTransfers.filter fun t => t.from_warehouseid = w).map (·.transfer_qty)).sum
    let demands := involvedWarehouseIds.map fun w => ratTrunc (netTransfer w)
    let availableTrucks := trucks.take maxTrucksToUse
    let truckCapacities := availableTrucks.map (·.loadcapacitykg)
    if totalSurplusOf demands = 0 then none
    else
      let actualRedistribution : Int := actualRedistributionOf demands truckCapacities
      let scaled :=
        scaleDemands demands (totalDeficitOf demands : Rat) (actualRedistribution : Rat)
      let coords := involvedWarehouseIds.map fun w =>
        match warehouses.find? fun wh => wh.warehouseid = w with
        | some wh => (wh.x, wh.y)
        | none => ((0 : Rat), (0 : Rat))
      let nodes := (scaled.zip coords).map fun p => (p.1, p.2.1, p.2.2)
      let split := splitLargeDemands (truckCapacities.foldr max 0) nodes
      let splitDemandList := split.map (·.1)
      some (match solver pid splitDemandList truckCapacities with
        | some visited =>
          vrpAssignLoop visited (actualRedistribution : Rat) availableTrucks 0 0
        | none => basicAssignments availableTrucks splitDemandList)

/-- The round-robin fallback of `force_vrp_solution` (lines 597-623). -/
def forcedAssignments (maxTrucksToUse : Nat) (pid : Nat)
    (transfers : List TransferCandidate) (trucks : List Truck) :
    List RouteAssignment :=
  let productTransfers := transfers.filter fun t => t.productid = pid
  if productTransfers = [] then []
  else
    let availableTrucks := trucks.take maxTrucksToUse
    if availableTrucks = [] then []
    else
      let totalLoad : Rat := (productTransfers.map (·.transfer_qty)).sum
      let trucksNeeded := min availableTrucks.length
        (max 1 (ratTrunc (totalLoad / 1000)).toNat)
      (availableTrucks.take trucksNeeded).enum.map fun it =>
        { route_key := "forced_route_" ++ toString it.1, truck_id := it.2.truckid,
          capacity := it.2.loadcapacitykg, total_load := totalLoad / (trucksNeeded : Rat) }

/-- `force_vrp_solution`: retry the normal VRP; on a missing or empty result,
synthesise round-robin assignments. -/
def force_vrp_solution (solver : Nat → List Int → List Int → Option (List Nat))
    (maxTrucksToUse : Nat) (pid : Nat) (transfers : List TransferCandidate)
    (warehouses : List WarehouseNode) (trucks : List Truck) : List RouteAssignment :=
  match solve_redistribution_vrp solver maxTrucksToUse pid transfers warehouses trucks with
  | some a => if a = [] then forcedAssignments maxTrucksToUse pid transfers trucks else a
  | none => forcedAssignments maxTrucksToUse pid transfers trucks

/-- First routing pass of `generate_transfer_suggestions` (lines 1119-1130):
products whose VRP solve yields a non-empty assignment set. -/
def vrpFirstPass (solver : Nat → List Int → List Int → Option (List Nat))
    (maxTrucksToUse : Nat) (transfers : List TransferCandidate)
    (warehouses : List WarehouseNode) (trucks : List Truck) :
    List (Nat × List RouteAssignment) :=
  (dedupFirst (transfers.map (·.productid))).filterMap fun p =>
    match solve_redistribution_vrp solver maxTrucksToUse p transfers warehouses trucks with
    | some a => if a = [] then none else some (p, a)
    | none => none

/-- Routing orchestration (lines 1105-1142): the first pass, then — only when
it produced nothing for any product — the forcing pass over all products.
(`value_counts` orders products by transfer count; no verified claim depends
on that order.) -/
def runRouting (solver : Nat → List Int → List Int → Option (List Nat))
    (maxTrucksToUse : Nat) (transfers : List TransferCandidate)
    (warehouses : List WarehouseNode) (trucks : List Truck) :
    List (Nat × List RouteAssignment) :=
  let firstPass := vrpFirstPass solver maxTrucksToUse transfers warehouses trucks
  if firstPass = [] then
    (dedupFirst (transfers.map (·.productid))).filterMap fun p =>
      let a := force_vrp_solution solver maxTrucksToUse p transfers warehouses trucks
      if a = [] then none else some (p, a)
  else firstPass

/-! ## Response assembly (`prepare_response_data`, lines 890-1044)

Only the transfer-record list is modelled (display-name resolution and the
two aggregate summaries do not figure in the verified claims beyond their
presence in the response shape). -/

structure TransferRecord where
  product_id : Nat
  product_record_id : Nat
  origin_warehouse_id : Nat
  destination_warehouse_id : Nat
  quantity_kg : Rat
  assigned_truck_id : Option Nat
  truck_capacity_kg : Option Int
  route_total_load_kg : Option Rat
  deriving Repr, DecidableEq

/-- Truck lookup of lines 898-914: find the matching product's assignment
dict; the `(from, to)` tuple key never matches the synthetic string keys, so
only a `vrp_route_` entry can attach. -/
def findAssignedTruck (allTruckAssignments : List (Nat × List RouteAssignment))
    (t : TransferCandidate) : Option RouteAssignment :=
  (allTruckAssignments.find? fun pa => pa.1 = t.productid).bind fun pa =>
    pa.2.find? fun a => a.route_key.startsWith ("vrp_route_")

/-- `prepare_response_data`: one output record per surviving transfer
candidate, whether or not a truck was found for it. -/
def prepare_response_data (dfTransfers : List TransferCandidate)
    (allTruckAssignments : List (Nat × List RouteAssignment)) : List TransferRecord :=
  dfTransfers.map fun t =>
    let assigned := findAssignedTruck allTruckAssignments t
    { product_id := t.productid, product_record_id := t.recordid,
      origin_warehouse_id := t.from_warehouseid,
      destination_warehouse_id := t.to_warehouseid,
      quantity_kg := t.transfer_qty,
      assigned_truck_id := assigned.map (·.truck_id),
      truck_capacity_kg := assigned.map (·.capacity),
      route_total_load_kg := assigned.map (·.total_load) }

/-! ## Pipeline entry and controller
(`generate_transfer_suggestions`, lines 1046-1181, and
`transfer_suggestions_controller.py`) -/

structure ProductSummary where
  product_id : Nat
  total_quantity_kg : Rat
  number_of_transfers : Nat
  trucks_required : Nat
  deriving Repr, DecidableEq

structure RouteSummary where
  origin_warehouse_id : Nat
  destination_warehouse_id : Nat
  assigned_truck_id : Option Nat
  route_total_kg : Rat
  number_of_records : Nat
  number_of_products : Nat
  deriving Repr, DecidableEq

structure Snapshot where
  buyers : List Nat
  warehouses : List WarehouseNode
  inventory : List InvRecord
  trucks : List Truck
  sales : List SaleRow
  deriving Repr, DecidableEq

/-- The Python dict returned by the service; fields absent from a particular
return statement are `none`. -/
structure ServiceResult where
  success : Bool
  message : String
  error : Option String
  transfer_records : Option (List TransferRecord)
  product_summary : Option (List ProductSummary)
  route_summary : Option (List RouteSummary)
  deriving Repr, DecidableEq

/-- `generate_transfer_suggestions`, early phase: the fetch-failure return
(lines 1058-1063) and the empty-buyers return (lines 1066-1072, reached
because `run_clustering` returns `None` exactly when the buyer frame is
empty).  The rest of the pipeline is abstracted as a continuation; the
verified claim concerns only these early structured-failure paths.  The
whole body sits in `try/except`, so the service always returns a dict and
never raises to the caller. -/
def generate_transfer_suggestions (fetched : Option Snapshot)
    (rest : Snapshot → ServiceResult) : ServiceResult :=
  match fetched with
  | none =>
    { success := false, message := "Failed to fetch data from database",
      error := some ("Database connection error"), transfer_records := none,
      product_summary := none, route_summary := none }
  | some s =>
    if s.buyers = [] then
      { success := false, message := "No user data available for clustering",
        error := some ("Insufficient user data"), transfer_records := none,
        product_summary := none, route_summary := none }
    else rest s

structure ControllerResponse where
  success : Bool
  message : String
  transfer_records : List TransferRecord
  product_summary : List ProductSummary
  route_summary : List RouteSummary
  error : Option String
  deriving Repr, DecidableEq

/-- The controller's response construction (controller lines 105-123): on
failure, the pydantic response model defaults every transfer list to `[]`. -/
def controller_wrap (r : ServiceResult) : ControllerResponse :=
  if r.success then
    { success := true,
      message := "Successfully generated " ++
        toString (r.transfer_records.getD []).length ++
        " transfer suggestions for " ++
        toString (r.product_summary.getD []).length ++ " products",
      transfer_records := r.transfer_records.getD [],
      product_summary := r.product_summary.getD [],
      route_summary := r.route_summary.getD [], error := none }
  else
    { success := false, message := r.message, transfer_records := [],
      product_summary := [], route_summary := [], error := r.error }

/-! # Verified claims -/

/-- C8: with zero buyer locations the pipeline returns a structured failure —
success = false, the insufficient-data message, empty transfer lists in the
wrapped response — distinct from the DataUnavailable (fetch-failed) failure,
and (being a total function into the response type) no exception reaches the
caller. -/
theorem C8_no_buyers_structured_failure (s : Snapshot)
    (rest : Snapshot → ServiceResult) (h : s.buyers = []) :
    (controller_wrap (generate_transfer_suggestions (some s) rest)).success = false ∧
    (controller_wrap (generate_transfer_suggestions (some s) rest)).message =
      "No user data available for clustering" ∧
    (controller_wrap (generate_transfer_suggestions (some s) rest)).transfer_records = [] ∧
    (controller_wrap (generate_transfer_suggestions (some s) rest)).product_summary = [] ∧
    (controller_wrap (generate_transfer_suggestions (some s) rest)).route_summary = [] ∧
    (controller_wrap (generate_transfer_suggestions (some s) rest)).error =
      some ("Insufficient user data") ∧
    controller_wrap (generate_transfer_suggestions (some s) rest) ≠
      controller_wrap (generate_transfer_suggestions none rest) := by
  simp [generate_transfer_suggestions, controller_wrap, h]

def exSnapC8 : Snapshot :=
  { buyers := [], warehouses := [], inventory := [], trucks := [], sales := [] }

def exRestC8 : Snapshot → ServiceResult := fun _ =>
  { success := true, message := "done", error := none, transfer_records := some [],
    product_summary := some [], route_summary := some [] }

/-- Witness for C8 at a concrete empty-buyers snapshot. -/
theorem C8_no_buyers_structured_failure_witness :
    (controller_wrap (generate_transfer_suggestions (some exSnapC8) exRestC8)).success
      = false ∧
    (controller_wrap (generate_transfer_suggestions (some exSnapC8) exRestC8)).message =
      "No user data available for clustering" ∧
    (controller_wrap (generate_transfer_suggestions (some exSnapC8)
      exRestC8)).transfer_records = [] ∧
    (controller_wrap (generate_transfer_suggestions (some exSnapC8)
      exRestC8)).product_summary = [] ∧
    (controller_wrap (generate_transfer_suggestions (some exSnapC8)
      exRestC8)).route_summary = [] ∧
    (controller_wrap (generate_transfer_suggestions (some exSnapC8) exRestC8)).error =
      some ("Insufficient user data") ∧
    controller_wrap (generate_transfer_suggestions (some exSnapC8) exRestC8) ≠
      controller_wrap (generate_transfer_suggestions none exRestC8) :=
  C8_no_buyers_structured_failure exSnapC8 exRestC8 rfl

/-- C2: the confidence filter keeps exactly the candidates at or above the
threshold when at least the configured minimum pass; otherwise the top
minimum-many by confidence when the input is large enough; otherwise the
whole input — and the output count is at least
min(minimum, candidate count) for non-empty input. -/
theorem C2_confidence_filter (thr : Rat) (m : Nat) (l : List TransferCandidate)
    (hne : l ≠ []) :
    ((m ≤ (l.filter fun t => thr ≤ t.confidence_score).length →
        apply_confidence_threshold thr m l =
          l.filter fun t => thr ≤ t.confidence_score) ∧
      ((l.filter fun t => thr ≤ t.confidence_score).length < m → m ≤ l.length →
        apply_confidence_threshold thr m l =
          (List.insertionSort
            (fun a b : TransferCandidate => b.confidence_score ≤ a.confidence_score)
            l).take m) ∧
      ((l.filter fun t => thr ≤ t.confidence_score).length < m → l.length < m →
        apply_confidence_threshold thr m l = l) ∧
      min m l.length ≤ (apply_confidence_threshold thr m l).length) := by
  unfold apply_confidence_threshold
  rw [if_neg hne]
  by_cases h1 : m ≤ (l.filter fun t => thr ≤ t.confidence_score).length
  · rw [if_pos h1]
    refine ⟨fun _ => rfl, fun hlt _ => absurd h1 (not_le.mpr hlt),
      fun hlt _ => absurd h1 (not_le.mpr hlt), ?_⟩
    exact le_trans (min_le_left _ _) h1
  · rw [if_neg h1]
    by_cases h2 : m ≤ l.length
    · rw [if_pos h2]
      refine ⟨fun hle => absurd hle h1, fun _ _ => rfl,
        fun _ hlt => absurd h2 (not_le.mpr hlt), ?_⟩
      rw [List.length_take, List.length_insertionSort]
    · rw [if_neg h2]
      push_neg at h2
      refine ⟨fun hle => absurd hle h1, fun _ hle => absurd hle (not_le.mpr h2),
        fun _ _ => rfl, min_le_right _ _⟩

def exCandC2 : TransferCandidate :=
  { recordid := 1, productid := 1, from_warehouseid := 1, to_warehouseid := 2,
    transfer_qty := 50, supplier_id := 1, quality := 0, registration_date := 0,
    confidence_score := 0.7 }

/-- Witness for C2: one candidate above the default threshold, minimum 1. -/
theorem C2_confidence_filter_witness :
    apply_confidence_threshold 0.6 1 [exCandC2] =
      [exCandC2].filter (fun t => (0.6 : Rat) ≤ t.confidence_score) ∧
    min 1 [exCandC2].length ≤ (apply_confidence_threshold 0.6 1 [exCandC2]).length :=
  ⟨(C2_confidence_filter 0.6 1 [exCandC2] (by simp)).1 (by norm_num [exCandC2]),
    (C2_confidence_filter 0.6 1 [exCandC2] (by simp)).2.2.2⟩

/-! ### C1: duplicate consumption of an inventory record -/

def zmapC1 : Int → Option Nat := fun z =>
  if z = 1 then some 101 else if z = 2 then some 102 else none

def forecastC1 : List ForecastRow :=
  [{ productid := 1, zone_id := 1, forecasteddemandkg := 60, forecast_confidence := 0.5 },
   { productid := 1, zone_id := 2, forecasteddemandkg := 60, forecast_confidence := 0.5 }]

def invC1 : List InvRecord :=
  [{ recordid := 7, productid := 1, warehouseid := 103, quantitykg := 50,
     supplierid := 5, qualityclassification := 0, registrationdate := 0 }]

/-- C1: the matcher tracks neither consumed records nor consumed surplus
across deficit rows, so with two deficit warehouses (101 and 102, 60 kg
short each) drawing on one surplus warehouse (103, one 50 kg record), the
single record 7 is emitted in two transfer candidates and the summed
transfer quantity drawn from it is 100 kg — twice its 50 kg quantity,
contradicting the at-most-one-candidate-per-record invariant. -/
theorem C1_record_consumed_twice :
    ((calculate_inventory_delta zmapC1 forecastC1 invC1).map (·.recordid)) = [7, 7] ∧
    ((calculate_inventory_delta zmapC1 forecastC1 invC1).map (·.transfer_qty)).sum
      = 100 ∧
    invC1.map (·.quantitykg) = [50] := by
  norm_num [calculate_inventory_delta, dfDelta, dfDemand, dfInventoryTotals,
    mappedForecast, dedupFirst, overSurplusRows, pickFromRecords, zmapC1,
    forecastC1, invC1, List.insertionSort, List.orderedInsert,
    List.filterMap_cons, List.find?_cons, List.flatMap_cons, List.flatMap_nil]

/-! ### C7 counterexample: a sparse group with one daily observation -/

def salesC7 : List SaleRow :=
  [{ productid := 1, zone_id := 0, ds := 5, quantitykg := 40 }]

/-- C7 counterexample: the (product 1, zone 0) group has a single daily
observation — below the minimum-data-points threshold — yet the forecaster
produces no forecast at all for it (the `len(df_ts) < 2` guard skips the
group), so no forecast with demand = mean × horizon exists. -/
theorem C7_single_observation_group_skipped :
    run_forecasting (fun _ => none) (fun _ => 0) salesC7 = [] ∧
    (dailySeries (salesC7.filter fun r => r.productid = 1 ∧ r.zone_id = 0)).length
      = 1 ∧
    1 < MIN_DATA_POINTS_FOR_PROPHET := by
  norm_num [run_forecasting, forecastGroup, dailySeries, dedupFirst, salesC7,
    MIN_DATA_POINTS_FOR_PROPHET, List.insertionSort, List.orderedInsert,
    List.filterMap_cons, List.find?_cons, List.flatMap_cons, List.flatMap_nil]

/-! ### C4 counterexample: in-stock inventory confined to one warehouse -/

def zmapC4 : Int → Option Nat := fun z => if z = 1 then some 10 else none

def forecastC4 : List ForecastRow :=
  [{ productid := 1, zone_id := 1, forecasteddemandkg := 60, forecast_confidence := 0.5 }]

def invC4 : List InvRecord :=
  [{ recordid := 1, productid := 1, warehouseid := 10, quantitykg := 50,
     supplierid := 5, qualityclassification := 0, registrationdate := 0 }]

/-- C4 counterexample: one in-stock record, all inventory in warehouse 10,
demand forecast present but warehouse 10 in deficit — the matcher finds no
surplus, the balance generator finds no imbalance pair, and the forced-
minimum append path raises the DataFrame-truthiness ValueError, so the chain
ends in an error with no candidates although in-stock inventory exists. -/
theorem C4_single_warehouse_chain_error :
    transferCandidateChain zmapC4 forecastC4 invC4 =
      Except.error ("ValueError: the truth value of a DataFrame is ambiguous") ∧
    invC4 ≠ [] := by
  norm_num [transferCandidateChain, generate_warehouse_balance_transfers,
    balanceTransfersBase, warehouseStock, avgStockPerProduct,
    calculate_inventory_delta, dfDelta, dfDemand, dfInventoryTotals,
    mappedForecast, dedupFirst, overSurplusRows, pickFromRecords,
    FORCE_MINIMUM_TRANSFERS, MINIMUM_TRANSFER_SUGGESTIONS,
    WAREHOUSE_IMBALANCE_THRESHOLD, zmapC4, forecastC4, invC4,
    List.insertionSort, List.orderedInsert,
    List.filterMap_cons, List.find?_cons, List.flatMap_cons, List.flatMap_nil]

/-! ### C5: proportional demand scaling -/

theorem scaled_pos_sum_le {s : Rat} (hs : 0 ≤ s) :
    ∀ l : List Int,
      ((((l.map fun d : Int => if 0 < d then ratTrunc ((d : Rat) * s) else d).filter
          fun d => 0 < d).sum : Int) : Rat) ≤
        s * (((l.filter fun d : Int => 0 < d).sum : Int) : Rat) := by
  intro l
  induction l with
  | nil => simp
  | cons d tl ih =>
    rw [List.map_cons]
    by_cases hd : 0 < d
    · rw [if_pos hd]
      have hds : (0 : Rat) ≤ (d : Rat) * s := by positivity
      have htr : ((ratTrunc ((d : Rat) * s) : Int) : Rat) ≤ (d : Rat) * s :=
        ratTrunc_le_of_nonneg hds
      rw [List.filter_cons, List.filter_cons]
      simp only [decide_eq_true_eq]
      rw [if_pos hd]
      by_cases hp : 0 < ratTrunc ((d : Rat) * s)
      · rw [if_pos hp, List.sum_cons, List.sum_cons]
        push_cast
        push_cast at ih
        nlinarith [ih]
      · rw [if_neg hp, List.sum_cons]
        push_cast
        push_cast at ih
        nlinarith [ih]
    · rw [if_neg hd, List.filter_cons, List.filter_cons]
      simp only [decide_eq_true_eq]
      rw [if_neg hd, if_neg hd]
      exact ih

/-- C5: when the total positive net demand exceeds
min(total surplus, fleet capacity), every positive demand is scaled by
min(1, actual_redistribution / total_deficit) and the positive demands then
sum to at most the fleet capacity. -/
theorem C5_demand_scaling (demands truckCapacities : List Int)
    (hcap : ∀ c ∈ truckCapacities, 0 < c)
    (hgt : min (totalSurplusOf demands) truckCapacities.sum < totalDeficitOf demands) :
    scaleDemands demands (totalDeficitOf demands : Rat)
        (actualRedistributionOf demands truckCapacities : Rat) =
      (demands.map fun d : Int => if 0 < d then
        ratTrunc ((d : Rat) * min 1
          ((actualRedistributionOf demands truckCapacities : Rat) /
            (totalDeficitOf demands : Rat))) else d) ∧
    ((scaleDemands demands (totalDeficitOf demands : Rat)
        (actualRedistributionOf demands truckCapacities : Rat)).filter
      fun d : Int => 0 < d).sum ≤ truckCapacities.sum := by
  have hsur : (0 : Int) ≤ totalSurplusOf demands := abs_nonneg _
  have hfleet : (0 : Int) ≤ truckCapacities.sum :=
    List.sum_nonneg fun c hc => (hcap c hc).le
  have hdef : (0 : Int) < totalDeficitOf demands :=
    lt_of_le_of_lt (le_min hsur hfleet) hgt
  have hdefQ : (0 : Rat) < (totalDeficitOf demands : Rat) := by exact_mod_cast hdef
  have hact0 : (0 : Int) ≤ actualRedistributionOf demands truckCapacities :=
    le_min hsur (le_min hdef.le hfleet)
  have heq : scaleDemands demands (totalDeficitOf demands : Rat)
      (actualRedistributionOf demands truckCapacities : Rat) =
      (demands.map fun d : Int => if 0 < d then
        ratTrunc ((d : Rat) * min 1
          ((actualRedistributionOf demands truckCapacities : Rat) /
            (totalDeficitOf demands : Rat))) else d) := by
    unfold scaleDemands
    rw [if_pos hdefQ]
  refine ⟨heq, ?_⟩
  rw [heq]
  set s : Rat := min 1 ((actualRedistributionOf demands truckCapacities : Rat) /
    (totalDeficitOf demands : Rat)) with hs_def
  have hs0 : 0 ≤ s := by
    apply le_min (by norm_num)
    positivity
  have hkey := scaled_pos_sum_le hs0 demands
  have hstd : s * ((totalDeficitOf demands : Int) : Rat) ≤
      (actualRedistributionOf demands truckCapacities : Rat) := by
    have h1 : s ≤ (actualRedistributionOf demands truckCapacities : Rat) /
        (totalDeficitOf demands : Rat) := min_le_right _ _
    calc s * ((totalDeficitOf demands : Int) : Rat) ≤
        ((actualRedistributionOf demands truckCapacities : Rat) /
          (totalDeficitOf demands : Rat)) * (totalDeficitOf demands : Rat) := by
          apply mul_le_mul_of_nonneg_right h1 hdefQ.le
      _ = (actualRedistributionOf demands truckCapacities : Rat) := by
          field_simp
  have hafleet : (actualRedistributionOf demands truckCapacities : Rat) ≤
      (truckCapacities.sum : Rat) := by
    have : actualRedistributionOf demands truckCapacities ≤ truckCapacities.sum :=
      le_trans (min_le_right _ _) (min_le_right _ _)
    exact_mod_cast this
  have : ((((demands.map fun d : Int => if 0 < d then ratTrunc ((d : Rat) * s) else d).filter
      fun d : Int => 0 < d).sum : Int) : Rat) ≤ (truckCapacities.sum : Rat) := by
    calc ((((demands.map fun d : Int =>
        if 0 < d then ratTrunc ((d : Rat) * s) else d).filter
          fun d : Int => 0 < d).sum : Int) : Rat) ≤
        s * (((demands.filter fun d : Int => 0 < d).sum : Int) : Rat) := hkey
      _ = s * ((totalDeficitOf demands : Int) : Rat) := by rw [totalDeficitOf]
      _ ≤ (actualRedistributionOf demands truckCapacities : Rat) := hstd
      _ ≤ (truckCapacities.sum : Rat) := hafleet
  exact_mod_cast this

/-- Witness for C5: demands (−100, +100), a single 30-capacity truck. -/
theorem C5_demand_scaling_witness :
    ((scaleDemands [(-100 : Int), 100] (totalDeficitOf [(-100 : Int), 100] : Rat)
        (actualRedistributionOf [(-100 : Int), 100] [(30 : Int)] : Rat)).filter
      fun d : Int => 0 < d).sum ≤ ([(30 : Int)] : List Int).sum :=
  (C5_demand_scaling [(-100 : Int), 100] [(30 : Int)]
    (by decide) (by decide)).2

/-! ### C6: splitting of oversized nodes -/

theorem splitNode_eq_self {cap : Int} {dc : Int × Rat × Rat} (h : |dc.1| ≤ cap) :
    splitNode cap dc = [dc] := by
  unfold splitNode
  rw [if_pos h]

theorem splitNode_bound {cap : Int} (hcap : 0 < cap) (dc : Int × Rat × Rat) :
    ∀ x ∈ splitNode cap dc, |x.1| ≤ cap := by
  intro x hx
  unfold splitNode at hx
  by_cases h : |dc.1| ≤ cap
  · rw [if_pos h] at hx
    simp at hx
    rw [hx]
    exact h
  · rw [if_neg h] at hx
    rcases List.eq_of_mem_replicate hx with rfl
    push_neg at h
    set d := dc.1 with hd
    set M : Nat := d.natAbs with hM
    set C : Nat := cap.toNat with hC
    have hCpos : 0 < C := by
      simp only [hC]
      omega
    have hMC : C < M := by
      have h1 : cap < |d| := h
      have h2 : |d| = (M : Int) := (Int.abs_eq_natAbs d)
      omega
    set n : Nat := (M + C - 1) / C with hn
    have hMn : M ≤ C * n := by
      have hdm := Nat.div_add_mod (M + C - 1) C
      have hmlt : (M + C - 1) % C < C := Nat.mod_lt _ hCpos
      simp only [← hn] at hdm
      omega
    have hn1 : 1 ≤ n := by
      by_contra hcon
      push_neg at hcon
      interval_cases n
      omega
    have hnQ : (0 : Rat) < (n : Rat) := by exact_mod_cast hn1
    have habs : |(d : Rat) / (n : Rat)| ≤ (cap : Rat) := by
      rw [abs_div, abs_of_pos hnQ]
      rw [div_le_iff₀ hnQ]
      have h1 : |(d : Rat)| = (M : Rat) := by
        rw [← Int.cast_abs, Int.abs_eq_natAbs]
        exact_mod_cast rfl
      rw [h1]
      have h2 : (M : Rat) ≤ (C : Rat) * (n : Rat) := by exact_mod_cast hMn
      have h3 : (C : Rat) ≤ (cap : Rat) := by
        have h4 : (C : Int) = cap := Int.toNat_of_nonneg hcap.le
        exact_mod_cast h4.le
      calc (M : Rat) ≤ (C : Rat) * (n : Rat) := h2
        _ ≤ (cap : Rat) * (n : Rat) := by
            apply mul_le_mul_of_nonneg_right h3 hnQ.le
    have hle := le_trans (abs_ratTrunc_le ((d : Rat) / (n : Rat))) habs
    have hfin : ((|ratTrunc ((d : Rat) / (n : Rat))| : Int) : Rat) ≤ (cap : Rat) := by
      rw [Int.cast_abs]
      exact hle
    exact_mod_cast hfin

theorem flatMap_eq_self {α : Type} {f : α → List α} :
    ∀ {l : List α}, (∀ x ∈ l, f x = [x]) → l.flatMap f = l := by
  intro l
  induction l with
  | nil => intro _; rfl
  | cons a as ih =>
    intro h
    rw [List.flatMap_cons, h a (List.mem_cons_self a as),
      ih fun x hx => h x (List.mem_cons_of_mem a hx)]
    rfl

/-- C6: when some node's absolute net demand exceeds the largest truck
capacity, every node is expanded by `splitNode` — an oversized node becomes
ceil(|d|/cap) synthetic visits at the same coordinates, each with demand
int(d/num_splits) — and afterwards every node's absolute demand is at most
the largest truck capacity. -/
theorem C6_split_within_capacity (maxTruckCapacity : Int)
    (nodes : List (Int × Rat × Rat)) (hcap : 0 < maxTruckCapacity) :
    splitLargeDemands maxTruckCapacity nodes =
      nodes.flatMap (splitNode maxTruckCapacity) ∧
    ∀ x ∈ splitLargeDemands maxTruckCapacity nodes, |x.1| ≤ maxTruckCapacity := by
  unfold splitLargeDemands
  by_cases h : maxTruckCapacity < (nodes.map fun dc => |dc.1|).foldr max 0
  · rw [if_pos h]
    refine ⟨rfl, ?_⟩
    intro x hx
    rcases List.mem_flatMap.mp hx with ⟨dc, _, hmem⟩
    exact splitNode_bound hcap dc x hmem
  · rw [if_neg h]
    push_neg at h
    have hall : ∀ dc ∈ nodes, |dc.1| ≤ maxTruckCapacity := by
      intro dc hdc
      exact le_trans (le_foldr_max (List.mem_map_of_mem (fun dc => |dc.1|) hdc) 0) h
    refine ⟨(flatMap_eq_self fun dc hdc => splitNode_eq_self (hall dc hdc)).symm, ?_⟩
    intro x hx
    exact hall x hx

theorem ratTrunc_eval_25_3 : ratTrunc ((25 : Rat) / 3) = 8 := by
  have hnn : (0 : Rat) ≤ 25 / 3 := by norm_num
  simp only [ratTrunc, if_pos hnn]
  rw [Int.floor_eq_iff]
  norm_num

theorem C6_split_eval :
    splitLargeDemands 10 [((25 : Int), (0 : Rat), (0 : Rat))] =
      [((8 : Int), (0 : Rat), (0 : Rat)), ((8 : Int), (0 : Rat), (0 : Rat)),
        ((8 : Int), (0 : Rat), (0 : Rat))] := by
  have htn : (10 : Int).toNat = 10 := rfl
  have hna : (25 : Int).natAbs = 25 := rfl
  norm_num [splitLargeDemands, splitNode, ratTrunc_eval_25_3, htn, hna,
    List.flatMap_cons, List.flatMap_nil, List.replicate]

/-- Witness for C6: a 25 kg node against a 10 kg largest truck splits into
three visits of 8 kg each, within capacity. -/
theorem C6_split_within_capacity_witness : |(8 : Int)| ≤ 10 :=
  (C6_split_within_capacity 10 [((25 : Int), (0 : Rat), (0 : Rat))] (by decide)).2
    ((8 : Int), (0 : Rat), (0 : Rat))
    (by rw [C6_split_eval]; exact List.mem_cons_self _ _)

/-! ### Shape lemmas for candidates produced by the three generators -/

theorem pickFromRecords_mem {pid fromW toW : Nat} {need dC sC : Rat} :
    ∀ {recs : List InvRecord} {rn av : Rat} {c : TransferCandidate},
      c ∈ (pickFromRecords pid fromW toW need dC sC recs rn av).1 →
      c.from_warehouseid = fromW ∧ c.to_warehouseid = toW ∧ c.productid = pid ∧
        ∃ q av2, c.confidence_score = transferConfidence need av2 q dC sC := by
  intro recs
  induction recs with
  | nil =>
    intro rn av c h
    simp [pickFromRecords] at h
  | cons r rs ih =>
    intro rn av c h
    simp only [pickFromRecords] at h
    split_ifs at h with h1 h2
    · simp at h
    · simp only [List.mem_cons] at h
      rcases h with rfl | h
      · exact ⟨rfl, rfl, rfl, r.quantitykg, av, rfl⟩
      · exact ih h
    · exact ih h

theorem overSurplusRows_mem {inv : List InvRecord} {pid dW : Nat} {need dC : Rat} :
    ∀ {rows : List DeltaRow} {rn : Rat} {c : TransferCandidate},
      c ∈ overSurplusRows inv pid dW need dC rows rn →
      ∃ s ∈ rows, c.from_warehouseid = s.warehouseid ∧ c.to_warehouseid = dW ∧
        c.productid = pid ∧
        ∃ q av2, c.confidence_score =
          transferConfidence need av2 q dC s.forecast_confidence := by
  intro rows
  induction rows with
  | nil =>
    intro rn c h
    simp [overSurplusRows] at h
  | cons s ss ih =>
    intro rn c h
    simp only [overSurplusRows] at h
    split_ifs at h with h1
    · simp at h
    · rcases List.mem_append.mp h with h2 | h2
      · have h3 := pickFromRecords_mem h2
        exact ⟨s, List.mem_cons_self _ _, h3.1, h3.2.1, h3.2.2.1, h3.2.2.2⟩
      · rcases ih h2 with ⟨s2, hs2, rest⟩
        exact ⟨s2, List.mem_cons_of_mem _ hs2, rest⟩

theorem calculate_inventory_delta_mem {zmap : Int → Option Nat}
    {f : List ForecastRow} {inv : List InvRecord} {c : TransferCandidate}
    (h : c ∈ calculate_inventory_delta zmap f inv) :
    ∃ d ∈ (dfDelta zmap f inv).filter fun r => r.deltakg < 0,
      ∃ s ∈ (dfDelta zmap f inv).filter fun r => 0 < r.deltakg,
        s.productid = d.productid ∧ c.from_warehouseid = s.warehouseid ∧
        c.to_warehouseid = d.warehouseid ∧
        ∃ q av2, c.confidence_score =
          transferConfidence |d.deltakg| av2 q d.forecast_confidence
            s.forecast_confidence := by
  simp only [calculate_inventory_delta] at h
  rcases List.mem_flatMap.mp h with ⟨d, hd, hmem⟩
  rcases overSurplusRows_mem hmem with ⟨s, hs, h1, h2, h3, h4⟩
  have hs2 := (List.perm_insertionSort
    (fun a b : DeltaRow => b.deltakg ≤ a.deltakg) _).mem_iff.mp hs
  rcases List.mem_filter.mp hs2 with ⟨hs3, hs4⟩
  exact ⟨d, hd, s, hs3, by simpa using hs4, h1, h2, h4⟩

theorem transferConfidence_bounds {deficitConf surplusConf : Rat}
    (hd : deficitConf ≤ 1) (hs : surplusConf ≤ 1)
    (neededQty availableSurplus recordQty : Rat) :
    0 ≤ transferConfidence neededQty availableSurplus recordQty deficitConf surplusConf ∧
      transferConfidence neededQty availableSurplus recordQty deficitConf surplusConf
        ≤ 1 := by
  simp only [transferConfidence]
  constructor
  · have h0 : (0.1 : Rat) ≤ max 0.1 (0.5 * ((deficitConf + surplusConf) / 2) +
      0.2 * min (neededQty / 100) 1 + 0.2 * min (availableSurplus / 100) 1 +
      0.1 * min (recordQty / neededQty) 1) := le_max_left _ _
    linarith
  · apply max_le (by norm_num)
    have h1 : min (neededQty / 100) 1 ≤ 1 := min_le_right _ _
    have h2 : min (availableSurplus / 100) 1 ≤ 1 := min_le_right _ _
    have h3 : min (recordQty / neededQty) 1 ≤ 1 := min_le_right _ _
    linarith

theorem mappedForecast_mem {zmap : Int → Option Nat} {f : List ForecastRow}
    {p : Nat × ForecastRow} (h : p ∈ mappedForecast zmap f) : p.2 ∈ f := by
  simp only [mappedForecast] at h
  rcases List.mem_filterMap.mp h with ⟨r, hr, heq⟩
  cases hzm : zmap r.zone_id with
  | none => rw [hzm] at heq; simp at heq
  | some w =>
    rw [hzm] at heq
    have hwr : (w, r) = p := by simpa using heq
    rw [← hwr]
    exact hr

theorem dfDemand_conf_mem {zmap : Int → Option Nat} {f : List ForecastRow}
    (hconf : ∀ r ∈ f, 0 ≤ r.forecast_confidence ∧ r.forecast_confidence ≤ 1) :
    ∀ e ∈ dfDemand zmap f, 0 ≤ e.forecast_confidence ∧ e.forecast_confidence ≤ 1 := by
  intro e he
  simp only [dfDemand] at he
  rcases List.mem_map.mp he with ⟨k, hk, rfl⟩
  have hmem : ∀ x ∈ ((mappedForecast zmap f).filter fun r =>
      r.1 = k.1 ∧ r.2.productid = k.2).map fun r => r.2.forecast_confidence,
      0 ≤ x ∧ x ≤ 1 := by
    intro x hx
    rcases List.mem_map.mp hx with ⟨r, hr, rfl⟩
    exact hconf r.2 (mappedForecast_mem (List.mem_filter.mp hr).1)
  constructor
  · have h1 := @list_mean_nonneg (((mappedForecast zmap f).filter fun r =>
      r.1 = k.1 ∧ r.2.productid = k.2).map fun r => r.2.forecast_confidence)
      (fun x hx => (hmem x hx).1)
    rw [List.length_map] at h1
    exact h1
  · have h1 := @list_mean_le_one (((mappedForecast zmap f).filter fun r =>
      r.1 = k.1 ∧ r.2.productid = k.2).map fun r => r.2.forecast_confidence)
      (fun x hx => (hmem x hx).2)
    rw [List.length_map] at h1
    exact h1

theorem dfDelta_conf_mem {zmap : Int → Option Nat} {f : List ForecastRow}
    {inv : List InvRecord}
    (hconf : ∀ r ∈ f, 0 ≤ r.forecast_confidence ∧ r.forecast_confidence ≤ 1) :
    ∀ row ∈ dfDelta zmap f inv,
      0 ≤ row.forecast_confidence ∧ row.forecast_confidence ≤ 1 := by
  intro row hrow
  simp only [dfDelta] at hrow
  rcases List.mem_map.mp hrow with ⟨k, hk, rfl⟩
  cases hfind : (dfDemand zmap f).find? fun d => d.warehouseid = k.1 ∧ d.productid = k.2 with
  | none => simp [hfind]
  | some dent =>
    have hd := List.mem_of_find?_eq_some hfind
    simpa [hfind] using dfDemand_conf_mem hconf dent hd

theorem balancePick_mem {pid fromW toW : Nat} :
    ∀ {recs : List InvRecord} {e nd : Rat} {c : TransferCandidate},
      c ∈ (balancePick pid fromW toW recs e nd).1 →
      c.confidence_score = 0.8 ∧ c.from_warehouseid = fromW ∧
        c.to_warehouseid = toW ∧ c.productid = pid := by
  intro recs
  induction recs with
  | nil =>
    intro e nd c h
    simp [balancePick] at h
  | cons r rs ih =>
    intro e nd c h
    simp only [balancePick] at h
    split_ifs at h with h1 h2
    · simp at h
    · simp only [List.mem_cons] at h
      rcases h with rfl | h
      · exact ⟨rfl, rfl, rfl, rfl⟩
      · exact ih h
    · exact ih h

theorem overDeficitRows_mem {pid fromW : Nat} {avg : Rat} {recs : List InvRecord} :
    ∀ {ds : List StockEntry} {e : Rat} {c : TransferCandidate},
      c ∈ overDeficitRows pid fromW avg recs ds e →
      ∃ d ∈ ds, c.confidence_score = 0.8 ∧ c.from_warehouseid = fromW ∧
        c.to_warehouseid = d.warehouseid ∧ c.productid = pid := by
  intro ds
  induction ds with
  | nil =>
    intro e c h
    simp [overDeficitRows] at h
  | cons d rest ih =>
    intro e c h
    simp only [overDeficitRows] at h
    split_ifs at h with h1
    · simp at h
    · rcases List.mem_append.mp h with h2 | h2
      · have h3 := balancePick_mem h2
        exact ⟨d, List.mem_cons_self _ _, h3.1, h3.2.1, h3.2.2.1, h3.2.2.2⟩
      · rcases ih h2 with ⟨d2, hd2, rest2⟩
        exact ⟨d2, List.mem_cons_of_mem _ hd2, rest2⟩

theorem balanceTransfersBase_mem {inv : List InvRecord} {c : TransferCandidate}
    (h : c ∈ balanceTransfersBase inv) :
    ∃ pa ∈ avgStockPerProduct (warehouseStock inv),
      ∃ s ∈ warehouseStock inv, ∃ d ∈ warehouseStock inv,
        s.productid = pa.1 ∧ d.productid = pa.1 ∧
        pa.2 * (1 + WAREHOUSE_IMBALANCE_THRESHOLD) < s.total ∧
        d.total < pa.2 * (1 - WAREHOUSE_IMBALANCE_THRESHOLD) ∧
        c.confidence_score = 0.8 ∧ c.from_warehouseid = s.warehouseid ∧
        c.to_warehouseid = d.warehouseid := by
  simp only [balanceTransfersBase] at h
  rcases List.mem_flatMap.mp h with ⟨pa, hpa, hmem⟩
  split_ifs at hmem with hempty
  · simp at hmem
  · rcases List.mem_flatMap.mp hmem with ⟨s, hs, hmem2⟩
    rcases overDeficitRows_mem hmem2 with ⟨d, hd, hsc, hfrom, hto, _⟩
    rcases List.mem_filter.mp hs with ⟨hs1, hs2⟩
    rcases List.mem_filter.mp hd with ⟨hd1, hd2⟩
    rcases List.mem_filter.mp hs1 with ⟨hs3, hs4⟩
    rcases List.mem_filter.mp hd1 with ⟨hd3, hd4⟩
    exact ⟨pa, hpa, s, hs3, d, hd3, by simpa using hs4, by simpa using hd4,
      by simpa using hs2, by simpa using hd2, hsc, hfrom, hto⟩

theorem getD_mem_of_lt {α : Type} {l : List α} {i : Nat} (h : i < l.length) (d : α) :
    l.getD i d ∈ l := by
  rw [List.getD_eq_getElem?_getD, List.getElem?_eq_getElem h]
  simp only [Option.getD_some]
  exact l.getElem_mem h

theorem minTransferPick_mem {fromW : Nat} {destWs : List Nat} {numNeeded : Nat}
    (hne : destWs ≠ []) :
    ∀ {recs : List InvRecord} {used : Nat} {c : TransferCandidate},
      c ∈ (minTransferPick fromW destWs numNeeded recs used).1 →
      c.confidence_score = 0.6 ∧ c.from_warehouseid = fromW ∧
        c.to_warehouseid ∈ destWs := by
  intro recs
  induction recs with
  | nil =>
    intro used c h
    simp [minTransferPick] at h
  | cons r rs ih =>
    intro used c h
    simp only [minTransferPick] at h
    split_ifs at h with h1
    · simp at h
    · simp only [List.mem_cons] at h
      rcases h with rfl | h
      · refine ⟨rfl, rfl, ?_⟩
        apply getD_mem_of_lt
        exact Nat.mod_lt _ (List.length_pos.mpr hne)
      · exact ih h

theorem minSourceLoop_mem {inv : List InvRecord} {destWs : List Nat}
    {numNeeded : Nat} (hne : destWs ≠ []) :
    ∀ {ws : List Nat} {used : Nat} {c : TransferCandidate},
      c ∈ minSourceLoop inv destWs numNeeded ws used →
      ∃ w ∈ ws, c.confidence_score = 0.6 ∧ c.from_warehouseid = w ∧
        c.to_warehouseid ∈ destWs := by
  intro ws
  induction ws with
  | nil =>
    intro used c h
    simp [minSourceLoop] at h
  | cons w rest ih =>
    intro used c h
    simp only [minSourceLoop] at h
    split_ifs at h with h1
    · simp at h
    · rcases List.mem_append.mp h with h2 | h2
      · have h3 := minTransferPick_mem hne h2
        exact ⟨w, List.mem_cons_self _ _, h3.1, h3.2.1, h3.2.2⟩
      · rcases ih h2 with ⟨w2, hw2, rest2⟩
        exact ⟨w2, List.mem_cons_of_mem _ hw2, rest2⟩

theorem generate_minimum_transfers_mem {inv : List InvRecord} {k : Nat}
    {c : TransferCandidate} (h : c ∈ generate_minimum_transfers inv k) :
    c.confidence_score = 0.6 ∧
    c.from_warehouseid ∈ ((sortedWarehouseTotals inv).take
      ((sortedWarehouseTotals inv).length / 2)).map (·.1) ∧
    c.to_warehouseid ∈ ((sortedWarehouseTotals inv).drop
      ((sortedWarehouseTotals inv).length -
        (sortedWarehouseTotals inv).length / 2)).map (·.1) := by
  simp only [generate_minimum_transfers] at h
  split_ifs at h with hlen
  · simp at h
  · push_neg at hlen
    have hne : ((sortedWarehouseTotals inv).drop
        ((sortedWarehouseTotals inv).length -
          (sortedWarehouseTotals inv).length / 2)).map (·.1) ≠ [] := by
      have hlen2 : 1 ≤ (sortedWarehouseTotals inv).length / 2 := by omega
      intro hcon
      have := congrArg List.length hcon
      rw [List.length_map, List.length_drop] at this
      simp at this
      omega
    rcases minSourceLoop_mem hne h with ⟨w, hw, hsc, hfrom, hto⟩
    exact ⟨hsc, hfrom ▸ hw, hto⟩

/-- C3: every transfer candidate produced by the forecast-based matcher (with
the 0.5/0.2/0.2/0.1 weighted score floored at 0.1), the warehouse-balance
generator (fixed 0.8) or the forced-minimum generator (fixed 0.6) has a
confidence score in [0, 1], given that the forecast confidences feeding the
matcher lie in [0, 1]. -/
theorem C3_confidence_scores_unit_interval (zmap : Int → Option Nat)
    (f : List ForecastRow) (inv : List InvRecord) (k : Nat)
    (hconf : ∀ r ∈ f, 0 ≤ r.forecast_confidence ∧ r.forecast_confidence ≤ 1) :
    ∀ c ∈ calculate_inventory_delta zmap f inv ++ balanceTransfersBase inv ++
        generate_minimum_transfers inv k,
      0 ≤ c.confidence_score ∧ c.confidence_score ≤ 1 := by
  intro c hc
  rcases List.mem_append.mp hc with hc1 | hc3
  · rcases List.mem_append.mp hc1 with hc1 | hc2
    · rcases calculate_inventory_delta_mem hc1 with
        ⟨d, hd, s, hs, _, _, _, q, av2, hscore⟩
      have hdR := dfDelta_conf_mem hconf d (List.mem_filter.mp hd).1
      have hsR := dfDelta_conf_mem hconf s (List.mem_filter.mp hs).1
      rw [hscore]
      exact transferConfidence_bounds hdR.2 hsR.2 _ _ _
    · have := (balanceTransfersBase_mem hc2).choose_spec.2.choose_spec.2.choose_spec
      rw [this.2.2.2.2.2.1]
      norm_num
  · rw [(generate_minimum_transfers_mem hc3).1]
    norm_num

def invMinW : List InvRecord :=
  [{ recordid := 1, productid := 1, warehouseid := 1, quantitykg := 50,
     supplierid := 5, qualityclassification := 0, registrationdate := 0 },
   { recordid := 2, productid := 2, warehouseid := 2, quantitykg := 30,
     supplierid := 5, qualityclassification := 0, registrationdate := 0 }]

def candMinW : TransferCandidate :=
  { recordid := 1, productid := 1, from_warehouseid := 1, to_warehouseid := 2,
    transfer_qty := 50, supplier_id := 5, quality := 0, registration_date := 0,
    confidence_score := 0.6 }

theorem minGenEval :
    calculate_inventory_delta (fun _ => none) [] invMinW ++
      balanceTransfersBase invMinW ++ generate_minimum_transfers invMinW 1 =
      [candMinW] := by
  norm_num [calculate_inventory_delta, dfDelta, dfDemand, dfInventoryTotals,
    mappedForecast, dedupFirst, overSurplusRows, pickFromRecords,
    balanceTransfersBase, warehouseStock, avgStockPerProduct, overDeficitRows,
    balancePick, generate_minimum_transfers, sortedWarehouseTotals,
    warehouseTotalsOf, minSourceLoop, minTransferPick,
    WAREHOUSE_IMBALANCE_THRESHOLD, invMinW, candMinW,
    List.insertionSort, List.orderedInsert,
    List.filterMap_cons, List.find?_cons, List.flatMap_cons, List.flatMap_nil]

/-- Witness for C3 at a concrete forced-minimum candidate. -/
theorem C3_confidence_scores_unit_interval_witness :
    0 ≤ candMinW.confidence_score ∧ candMinW.confidence_score ≤ 1 :=
  C3_confidence_scores_unit_interval (fun _ => none) [] invMinW 1 (by simp)
    candMinW (by rw [minGenEval]; exact List.mem_singleton.mpr rfl)

/-! ### Key-uniqueness of the grouped tables, and C10 -/

theorem nodup_map_of_left_inverse {α β : Type} {l : List α} {f : α → β} {key : β → α}
    (hl : l.Nodup) (h : ∀ a ∈ l, key (f a) = a) : ((l.map f).map key).Nodup := by
  rw [List.map_map]
  have heq : l.map (key ∘ f) = l := by
    rw [show l.map (key ∘ f) = l.map id from List.map_congr_left fun a ha => h a ha,
      List.map_id]
  rw [heq]
  exact hl

theorem dfDelta_keys_nodup (zmap : Int → Option Nat) (f : List ForecastRow)
    (inv : List InvRecord) :
    ((dfDelta zmap f inv).map fun r => (r.warehouseid, r.productid)).Nodup := by
  unfold dfDelta
  exact nodup_map_of_left_inverse (nodup_dedupFirst _) fun a _ => rfl

theorem warehouseStock_keys_nodup (inv : List InvRecord) :
    ((warehouseStock inv).map fun s => (s.warehouseid, s.productid)).Nodup := by
  unfold warehouseStock
  exact nodup_map_of_left_inverse (nodup_dedupFirst _) fun a _ => rfl

theorem warehouseStock_total_nonneg {inv : List InvRecord}
    (hq : ∀ r ∈ inv, 0 ≤ r.quantitykg) :
    ∀ s ∈ warehouseStock inv, 0 ≤ s.total := by
  intro s hs
  simp only [warehouseStock] at hs
  rcases List.mem_map.mp hs with ⟨k, hk, rfl⟩
  apply List.sum_nonneg
  intro x hx
  rcases List.mem_map.mp hx with ⟨r, hr, rfl⟩
  exact hq r (List.mem_filter.mp hr).1

theorem avgStockPerProduct_nonneg {inv : List InvRecord}
    (hq : ∀ r ∈ inv, 0 ≤ r.quantitykg) :
    ∀ pa ∈ avgStockPerProduct (warehouseStock inv), 0 ≤ pa.2 := by
  intro pa hpa
  simp only [avgStockPerProduct] at hpa
  rcases List.mem_map.mp hpa with ⟨pid, hpid, rfl⟩
  have h1 := @list_mean_nonneg
    (((warehouseStock inv).filter fun s => s.productid = pid).map (·.total))
    (fun x hx => by
      rcases List.mem_map.mp hx with ⟨s, hs, rfl⟩
      exact warehouseStock_total_nonneg hq s (List.mem_filter.mp hs).1)
  rw [List.length_map] at h1
  exact h1

theorem sortedWarehouseTotals_fst_nodup (inv : List InvRecord) :
    ((sortedWarehouseTotals inv).map (·.1)).Nodup := by
  have hperm : (sortedWarehouseTotals inv).Perm (warehouseTotalsOf inv) :=
    List.perm_insertionSort _ _
  have h1 : ((warehouseTotalsOf inv).map (·.1)).Nodup := by
    unfold warehouseTotalsOf
    exact nodup_map_of_left_inverse (nodup_dedupFirst _) fun a _ => rfl
  exact ((hperm.map _).nodup_iff).mpr h1

/-- C10 (implicit): no transfer candidate produced by any of the three
generators proposes the same warehouse as both source and destination — the
surplus/deficit (resp. above-average/below-average, resp. high-half/low-half)
warehouse sets are disjoint for any given product. -/
theorem C10_source_destination_distinct (zmap : Int → Option Nat)
    (f : List ForecastRow) (inv : List InvRecord) (k : Nat)
    (hq : ∀ r ∈ inv, 0 ≤ r.quantitykg) :
    ∀ c ∈ calculate_inventory_delta zmap f inv ++ balanceTransfersBase inv ++
        generate_minimum_transfers inv k,
      c.from_warehouseid ≠ c.to_warehouseid := by
  intro c hc hcontra
  rcases List.mem_append.mp hc with hc1 | hc3
  · rcases List.mem_append.mp hc1 with hc1 | hc2
    · rcases calculate_inventory_delta_mem hc1 with
        ⟨d, hd, s, hs, hprod, hfrom, hto, _⟩
      have hd1 := List.mem_filter.mp hd
      have hs1 := List.mem_filter.mp hs
      have hwh : s.warehouseid = d.warehouseid := by
        rw [← hfrom, ← hto, hcontra]
      have hsd : s = d := by
        apply List.inj_on_of_nodup_map (dfDelta_keys_nodup zmap f inv) hs1.1 hd1.1
        rw [hwh, hprod]
      have hneg : d.deltakg < 0 := by simpa using hd1.2
      have hpos : (0 : Rat) < s.deltakg := by simpa using hs1.2
      rw [hsd] at hpos
      linarith
    · rcases balanceTransfersBase_mem hc2 with
        ⟨pa, hpa, s, hsMem, d, hdMem, hsp, hdp, hsth, hdth, _, hfrom, hto⟩
      have hwh : s.warehouseid = d.warehouseid := by
        rw [← hfrom, ← hto, hcontra]
      have hsd : s = d := by
        apply List.inj_on_of_nodup_map (warehouseStock_keys_nodup inv) hsMem hdMem
        rw [hwh, hsp, hdp]
      have havg : 0 ≤ pa.2 := avgStockPerProduct_nonneg hq pa hpa
      rw [hsd] at hsth
      rw [WAREHOUSE_IMBALANCE_THRESHOLD] at hsth hdth
      nlinarith [hsth, hdth, havg]
  · rcases generate_minimum_transfers_mem hc3 with ⟨_, hfrom, hto⟩
    have hlenle : (sortedWarehouseTotals inv).length / 2 ≤
        (sortedWarehouseTotals inv).length - (sortedWarehouseTotals inv).length / 2 := by
      omega
    have hfrom2 : c.from_warehouseid ∈
        ((sortedWarehouseTotals inv).map (·.1)).take
          ((sortedWarehouseTotals inv).length / 2) := by
      rw [← List.map_take]
      exact hfrom
    have hto2 : c.to_warehouseid ∈
        ((sortedWarehouseTotals inv).map (·.1)).drop
          ((sortedWarehouseTotals inv).length -
            (sortedWarehouseTotals inv).length / 2) := by
      rw [← List.map_drop]
      exact hto
    rw [hcontra] at hfrom2
    exact List.disjoint_take_drop (sortedWarehouseTotals_fst_nodup inv)
      hlenle hfrom2 hto2

/-- Witness for C10 at a concrete forced-minimum candidate. -/
theorem C10_source_destination_distinct_witness :
    candMinW.from_warehouseid ≠ candMinW.to_warehouseid :=
  C10_source_destination_distinct (fun _ => none) [] invMinW 1
    (by norm_num [invMinW]) candMinW
    (by rw [minGenEval]; exact List.mem_singleton.mpr rfl)

/-- C4 (amended): a successful zero-candidate outcome of the fallback chain
occurs only when there is no in-stock inventory at all; whenever the chain
returns `ok l` with `l = []`, the inventory was empty.  (With non-empty
inventory the chain either returns a non-empty candidate list from the
matcher or the balance generator, or aborts with an exception — the
DataFrame-truthiness ValueError on the forced-minimum path, or the KeyError
when the balance frame is substituted for an empty forecast frame.) -/
theorem C4_empty_chain_only_without_inventory (zmap : Int → Option Nat)
    (f : List ForecastRow) (inv : List InvRecord) (l : List TransferCandidate)
    (h : transferCandidateChain zmap f inv = Except.ok l) (hl : l = []) :
    inv = [] := by
  subst hl
  simp only [transferCandidateChain] at h
  split_ifs at h with h1 h2
  · cases hbal : generate_warehouse_balance_transfers inv with
    | error e => rw [hbal] at h; simp at h
    | ok x => rw [hbal] at h; simp at h
  · simp only [generate_warehouse_balance_transfers] at h
    split_ifs at h with h3
    all_goals
      first
        | exact Except.noConfusion h
        | (have hbase : balanceTransfersBase inv = [] := by simpa using h
           simp [FORCE_MINIMUM_TRANSFERS, MINIMUM_TRANSFER_SUGGESTIONS, hbase] at h3
           exact h3)
  · simp only [Except.ok.injEq] at h
    exact absurd h h2

def zmapC4w : Int → Option Nat := fun _ => some 101

def forecastC4w : List ForecastRow :=
  [{ productid := 1, zone_id := 1, forecasteddemandkg := 60, forecast_confidence := 0.5 }]

/-- Witness for C4 (amended): with forecast demand present but no in-stock
inventory, the chain returns `ok []` and the theorem applies. -/
theorem C4_empty_chain_only_without_inventory_witness :
    transferCandidateChain zmapC4w forecastC4w [] = Except.ok [] ∧
      ([] : List InvRecord) = [] := by
  have hEval : transferCandidateChain zmapC4w forecastC4w [] = Except.ok [] := by
    norm_num [transferCandidateChain, generate_warehouse_balance_transfers,
      balanceTransfersBase, warehouseStock, avgStockPerProduct,
      calculate_inventory_delta, dfDelta, dfDemand, dfInventoryTotals,
      mappedForecast, dedupFirst, overSurplusRows, pickFromRecords,
      FORCE_MINIMUM_TRANSFERS, MINIMUM_TRANSFER_SUGGESTIONS,
      WAREHOUSE_IMBALANCE_THRESHOLD, zmapC4w, forecastC4w,
      List.insertionSort, List.orderedInsert,
      List.filterMap_cons, List.find?_cons, List.flatMap_cons, List.flatMap_nil]
  exact ⟨hEval,
    C4_empty_chain_only_without_inventory zmapC4w forecastC4w [] [] hEval rfl⟩

/-! ### C7: sparse-data forecasts -/

theorem forecastGroup_sparse (prophetFit : List (Nat × Rat) → Option ProphetFit)
    (sqrtFn : Rat → Rat) (p : Nat) (z : Int) (rows : List SaleRow)
    (hz : z ≠ -1) (h2 : 2 ≤ (dailySeries rows).length)
    (h10 : (dailySeries rows).length < MIN_DATA_POINTS_FOR_PROPHET) :
    ∃ fr, forecastGroup prophetFit sqrtFn p z rows = some fr ∧
      fr.productid = p ∧ fr.zone_id = z ∧
      fr.forecasteddemandkg =
        max 0 ((((dailySeries rows).map (·.2)).sum /
          ((dailySeries rows).length : Rat)) * (DEFAULT_FORECAST_DAYS : Rat)) := by
  simp only [forecastGroup]
  rw [if_neg hz, if_neg (by omega : ¬(dailySeries rows).length < 2), if_pos h10]
  exact ⟨_, rfl, rfl, rfl, rfl⟩

theorem dailySeries_val_nonneg {rows : List SaleRow}
    (hq : ∀ r ∈ rows, 0 ≤ r.quantitykg) :
    ∀ x ∈ (dailySeries rows).map (·.2), 0 ≤ x := by
  intro x hx
  rcases List.mem_map.mp hx with ⟨pr, hpr, rfl⟩
  simp only [dailySeries] at hpr
  rcases List.mem_map.mp hpr with ⟨d, hd, rfl⟩
  apply List.sum_nonneg
  intro y hy
  rcases List.mem_map.mp hy with ⟨r, hr, rfl⟩
  exact hq r (List.mem_filter.mp hr).1

theorem forecastGroup_demand_nonneg {prophetFit : List (Nat × Rat) → Option ProphetFit}
    {sqrtFn : Rat → Rat} {p : Nat} {z : Int} {rows : List SaleRow} {fr : ForecastRow}
    (h : forecastGroup prophetFit sqrtFn p z rows = some fr) :
    0 ≤ fr.forecasteddemandkg := by
  simp only [forecastGroup] at h
  split_ifs at h with h1 h2 h3 <;>
    first
      | exact Option.noConfusion h
      | (injection h with h4
         subst h4
         exact le_max_left _ _)
      | (cases hm : prophetFit (dailySeries rows) with
         | some fit =>
           rw [hm] at h
           injection h with h4
           subst h4
           exact le_max_left _ _
         | none =>
           rw [hm] at h
           injection h with h4
           subst h4
           exact le_max_left _ _)

theorem run_forecasting_nonneg (prophetFit : List (Nat × Rat) → Option ProphetFit)
    (sqrtFn : Rat → Rat) (sales : List SaleRow) :
    ∀ fr ∈ run_forecasting prophetFit sqrtFn sales, 0 ≤ fr.forecasteddemandkg := by
  intro fr hfr
  simp only [run_forecasting] at hfr
  rcases List.mem_filterMap.mp hfr with ⟨k, hk, heq⟩
  exact forecastGroup_demand_nonneg heq

/-- C7 (amended): every (product, zone) sales group on a non-outlier zone
with at least 2 but fewer than the minimum-data-points threshold of daily
observations yields a forecast whose total horizon demand equals
mean(daily quantity) × forecast horizon days (given non-negative sale
quantities), and every forecast the forecaster produces has non-negative
demand. -/
theorem C7_sparse_mean_forecast_and_nonneg :
    (∀ (prophetFit : List (Nat × Rat) → Option ProphetFit) (sqrtFn : Rat → Rat)
        (sales : List SaleRow) (p : Nat) (z : Int),
        (∀ r ∈ sales, 0 ≤ r.quantitykg) →
        (p, z) ∈ dedupFirst (sales.map fun r => (r.productid, r.zone_id)) →
        z ≠ -1 →
        2 ≤ (dailySeries (sales.filter fun r =>
          r.productid = p ∧ r.zone_id = z)).length →
        (dailySeries (sales.filter fun r => r.productid = p ∧ r.zone_id = z)).length <
          MIN_DATA_POINTS_FOR_PROPHET →
        ∃ fr ∈ run_forecasting prophetFit sqrtFn sales,
          fr.productid = p ∧ fr.zone_id = z ∧
          fr.forecasteddemandkg =
            (((dailySeries (sales.filter fun r =>
              r.productid = p ∧ r.zone_id = z)).map (·.2)).sum /
              ((dailySeries (sales.filter fun r =>
                r.productid = p ∧ r.zone_id = z)).length : Rat)) *
              (DEFAULT_FORECAST_DAYS : Rat)) ∧
    (∀ (prophetFit : List (Nat × Rat) → Option ProphetFit) (sqrtFn : Rat → Rat)
        (sales : List SaleRow) (fr : ForecastRow),
        fr ∈ run_forecasting prophetFit sqrtFn sales → 0 ≤ fr.forecasteddemandkg) := by
  constructor
  · intro prophetFit sqrtFn sales p z hq hkey hz h2 h10
    rcases forecastGroup_sparse prophetFit sqrtFn p z
      (sales.filter fun r => r.productid = p ∧ r.zone_id = z) hz h2 h10 with
      ⟨fr, heq, hp, hzz, hdem⟩
    have hq2 : ∀ r ∈ sales.filter fun r => r.productid = p ∧ r.zone_id = z,
        0 ≤ r.quantitykg := fun r hr => hq r (List.mem_filter.mp hr).1
    have hmean : 0 ≤ (((dailySeries (sales.filter fun r =>
        r.productid = p ∧ r.zone_id = z)).map (·.2)).sum /
        ((dailySeries (sales.filter fun r =>
          r.productid = p ∧ r.zone_id = z)).length : Rat)) := by
      have h1 := list_mean_nonneg (dailySeries_val_nonneg hq2)
      rw [List.length_map] at h1
      exact h1
    have hdays : (0 : Rat) ≤ (DEFAULT_FORECAST_DAYS : Rat) := by norm_num
    refine ⟨fr, ?_, hp, hzz, ?_⟩
    · simp only [run_forecasting]
      exact List.mem_filterMap.mpr ⟨(p, z), hkey, heq⟩
    · rw [hdem, max_eq_right (mul_nonneg hmean hdays)]
  · intro prophetFit sqrtFn sales fr hfr
    exact run_forecasting_nonneg prophetFit sqrtFn sales fr hfr

def salesC7w : List SaleRow :=
  [{ productid := 1, zone_id := 0, ds := 1, quantitykg := 10 },
   { productid := 1, zone_id := 0, ds := 2, quantitykg := 20 },
   { productid := 1, zone_id := 0, ds := 3, quantitykg := 30 }]

/-- Witness for C7 (amended): a 3-day sales group below the Prophet
threshold. -/
theorem C7_sparse_mean_forecast_and_nonneg_witness :
    (∃ fr ∈ run_forecasting (fun _ => none) (fun _ => 0) salesC7w,
      fr.productid = 1 ∧ fr.zone_id = 0 ∧
      fr.forecasteddemandkg =
        (((dailySeries (salesC7w.filter fun r =>
          r.productid = 1 ∧ r.zone_id = 0)).map (·.2)).sum /
          ((dailySeries (salesC7w.filter fun r =>
            r.productid = 1 ∧ r.zone_id = 0)).length : Rat)) *
          (DEFAULT_FORECAST_DAYS : Rat)) ∧
    (∀ fr ∈ run_forecasting (fun _ => none) (fun _ => 0) salesC7w,
      0 ≤ fr.forecasteddemandkg) := by
  constructor
  · exact C7_sparse_mean_forecast_and_nonneg.1 (fun _ => none) (fun _ => 0) salesC7w 1 0
      (by norm_num [salesC7w])
      (by norm_num [salesC7w, dedupFirst])
      (by decide)
      (by norm_num [salesC7w, dailySeries, dedupFirst, List.insertionSort,
        List.orderedInsert])
      (by norm_num [salesC7w, dailySeries, dedupFirst, List.insertionSort,
        List.orderedInsert, MIN_DATA_POINTS_FOR_PROPHET])
  · intro fr hfr
    exact C7_sparse_mean_forecast_and_nonneg.2 (fun _ => none) (fun _ => 0) salesC7w fr hfr

/-! ### C9: per-product routing output -/

def warehousesC9 : List WarehouseNode :=
  [{ warehouseid := 10, name := "A", x := 0, y := 0 },
   { warehouseid := 20, name := "B", x := 1, y := 0 }]

def trucksC9 : List Truck := [{ truckid := 1, loadcapacitykg := 1000 }]

def transfersC9 : List TransferCandidate :=
  [{ recordid := 1, productid := 1, from_warehouseid := 10, to_warehouseid := 20,
     transfer_qty := 50, supplier_id := 1, quality := 0, registration_date := 0,
     confidence_score := 0.9 },
   { recordid := 2, productid := 1, from_warehouseid := 20, to_warehouseid := 10,
     transfer_qty := 50, supplier_id := 1, quality := 0, registration_date := 1,
     confidence_score := 0.9 },
   { recordid := 3, productid := 2, from_warehouseid := 10, to_warehouseid := 20,
     transfer_qty := 30, supplier_id := 1, quality := 0, registration_date := 2,
     confidence_score := 0.9 }]

def solverC9 : Nat → List Int → List Int → Option (List Nat) := fun pid _ _ =>
  if pid = 2 then some [0] else none

def routeC9 : RouteAssignment :=
  { route_key := "vrp_route_" ++ toString 0, truck_id := 1, capacity := 1000,
    total_load := 30 }

theorem C9_solve_product1 : solve_redistribution_vrp solverC9 10 1 transfersC9
    warehousesC9 trucksC9 = none := by
  norm_num [solve_redistribution_vrp, dedupFirst, totalSurplusOf, ratTrunc,
    solverC9, transfersC9, warehousesC9, trucksC9, Int.ceil_neg,
    List.filterMap_cons, List.find?_cons, List.flatMap_cons, List.flatMap_nil]

theorem C9_solve_product2 : solve_redistribution_vrp solverC9 10 2 transfersC9
    warehousesC9 trucksC9 = some [routeC9] := by
  norm_num [solve_redistribution_vrp, dedupFirst, totalSurplusOf, totalDeficitOf,
    actualRedistributionOf, scaleDemands, splitLargeDemands, splitNode, ratTrunc,
    vrpAssignLoop, basicAssignments, solverC9, transfersC9, warehousesC9, trucksC9,
    routeC9, Int.ceil_neg,
    List.filterMap_cons, List.find?_cons, List.flatMap_cons, List.flatMap_nil]

theorem C9_products_dedup : dedupFirst (transfersC9.map (·.productid)) = [1, 2] := by
  norm_num [transfersC9, dedupFirst]

/-- C9 counterexample: product 1 has surviving transfer candidates (10→20 and
20→10, 50 kg each, so every warehouse nets to zero) and the fleet is
non-empty, yet the routing stage emits no route assignments for product 1 —
its solve returns `None` on the zero-surplus check, and because product 2
obtains a VRP solution the global forcing pass is skipped. -/
theorem C9_product_left_without_routes :
    (runRouting solverC9 10 transfersC9 warehousesC9 trucksC9).find?
      (fun pa => pa.1 = 1) = none ∧
    transfersC9.filter (fun t => t.productid = 1) ≠ [] ∧ trucksC9 ≠ [] := by
  have h3 : vrpFirstPass solverC9 10 transfersC9 warehousesC9 trucksC9 =
      [(2, [routeC9])] := by
    simp only [vrpFirstPass, C9_products_dedup, List.filterMap_cons,
      List.filterMap_nil, C9_solve_product1, C9_solve_product2]
    norm_num
  refine ⟨?_, by decide, by decide⟩
  simp only [runRouting, h3]
  norm_num

theorem forcedAssignments_ne_nil {maxTrucksToUse : Nat} {pid : Nat}
    {transfers : List TransferCandidate} {trucks : List Truck}
    (ht : transfers.filter (fun t => t.productid = pid) ≠ [])
    (htr : trucks.take maxTrucksToUse ≠ []) :
    forcedAssignments maxTrucksToUse pid transfers trucks ≠ [] := by
  simp only [forcedAssignments]
  rw [if_neg ht, if_neg htr]
  intro hcon
  have hlen := congrArg List.length hcon
  rw [List.length_map, List.enum_length, List.length_take] at hlen
  have h1 : 0 < (trucks.take maxTrucksToUse).length := List.length_pos.mpr htr
  simp only [List.length_nil] at hlen
  omega

theorem force_vrp_solution_ne_nil
    {solver : Nat → List Int → List Int → Option (List Nat)}
    {maxTrucksToUse : Nat} {pid : Nat} {transfers : List TransferCandidate}
    {warehouses : List WarehouseNode} {trucks : List Truck}
    (ht : transfers.filter (fun t => t.productid = pid) ≠ [])
    (htr : trucks.take maxTrucksToUse ≠ []) :
    force_vrp_solution solver maxTrucksToUse pid transfers warehouses trucks ≠ [] := by
  cases hsv : solve_redistribution_vrp solver maxTrucksToUse pid transfers
      warehouses trucks with
  | none =>
    simp only [force_vrp_solution, hsv]
    exact forcedAssignments_ne_nil ht htr
  | some a =>
    simp only [force_vrp_solution, hsv]
    by_cases ha : a = []
    · rw [if_pos ha]
      exact forcedAssignments_ne_nil ht htr
    · rw [if_neg ha]
      exact ha

/-- C9 (amended): when the first routing pass yields no VRP solution for any
product, the forcing pass gives every product with surviving candidates and a
non-empty fleet a non-empty set of route assignments; and independently of
routing, the response assembler emits exactly one transfer record per
surviving candidate, so no candidate is ever dropped due to routing failure.
(When some product does obtain a VRP solution, a product whose candidates net
to zero at every warehouse is left without assignments — the counterexample.) -/
theorem C9_forced_routes_and_no_candidate_dropped :
    (∀ (solver : Nat → List Int → List Int → Option (List Nat))
        (maxTrucksToUse : Nat) (transfers : List TransferCandidate)
        (warehouses : List WarehouseNode) (trucks : List Truck) (p : Nat),
        vrpFirstPass solver maxTrucksToUse transfers warehouses trucks = [] →
        transfers.filter (fun t => t.productid = p) ≠ [] →
        trucks.take maxTrucksToUse ≠ [] →
        ∃ pa ∈ runRouting solver maxTrucksToUse transfers warehouses trucks,
          pa.1 = p ∧ pa.2 ≠ []) ∧
    (∀ (transfers : List TransferCandidate)
        (assignments : List (Nat × List RouteAssignment)),
        (prepare_response_data transfers assignments).length = transfers.length) := by
  constructor
  · intro solver maxTrucksToUse transfers warehouses trucks p hfirst ht htr
    have hpmem : p ∈ dedupFirst (transfers.map (·.productid)) := by
      rcases List.exists_mem_of_ne_nil _ ht with ⟨t, hmem⟩
      rcases List.mem_filter.mp hmem with ⟨htm, hpp⟩
      apply mem_dedupFirst.mpr
      apply List.mem_map.mpr
      exact ⟨t, htm, by simpa using hpp⟩
    have hforce := @force_vrp_solution_ne_nil solver maxTrucksToUse p transfers
      warehouses trucks ht htr
    refine ⟨(p, force_vrp_solution solver maxTrucksToUse p transfers warehouses trucks),
      ?_, rfl, hforce⟩
    simp only [runRouting]
    rw [if_pos hfirst]
    apply List.mem_filterMap.mpr
    exact ⟨p, hpmem, by rw [if_neg hforce]⟩
  · intro transfers assignments
    simp [prepare_response_data]

def transfersC9w : List TransferCandidate :=
  [{ recordid := 1, productid := 1, from_warehouseid := 10, to_warehouseid := 20,
     transfer_qty := 50, supplier_id := 1, quality := 0, registration_date := 0,
     confidence_score := 0.9 }]

def solverC9w : Nat → List Int → List Int → Option (List Nat) := fun _ _ _ => some []

/-- Witness for C9 (amended): a solver whose solutions never visit any
vehicle leaves the first pass empty, and the forcing pass covers product 1. -/
theorem C9_forced_routes_and_no_candidate_dropped_witness :
    (∃ pa ∈ runRouting solverC9w 10 transfersC9w warehousesC9 trucksC9,
      pa.1 = 1 ∧ pa.2 ≠ []) ∧
    (prepare_response_data transfersC9w []).length = transfersC9w.length := by
  constructor
  · apply C9_forced_routes_and_no_candidate_dropped.1 solverC9w 10 transfersC9w
      warehousesC9 trucksC9 1
    · norm_num [vrpFirstPass, solve_redistribution_vrp, dedupFirst,
        totalSurplusOf, totalDeficitOf, actualRedistributionOf, scaleDemands,
        splitLargeDemands, splitNode, ratTrunc, vrpAssignLoop, basicAssignments,
        solverC9w, transfersC9w, warehousesC9, trucksC9, Int.ceil_neg,
        List.filterMap_cons, List.find?_cons, List.flatMap_cons, List.flatMap_nil]
    · norm_num [transfersC9w]
    · norm_num [trucksC9]
  · exact C9_forced_routes_and_no_candidate_dropped.2 transfersC9w []

end TransferService
